import Mathlib

set_option maxRecDepth 1000000

/-!
Verification development for the cutline search program.

The definitions below are shallow embeddings of the program's source:
grid points become pairs of integers (the source uses machine integers,
but every arithmetic operation performed on coordinates stays far from
the overflow boundary, and division only happens on non-negative values,
where Rust's truncating division agrees with `Int.tdiv`), the petgraph
`UnGraphMap` becomes a structure holding the node list and the edge list
in insertion order, fallible operations return `Option`, and the
recursive traversals take an explicit fuel argument that is chosen large
enough that the fuel never runs out on the inputs considered.
-/

namespace Cutrs

/-- A grid point `(x, y)`; primal and dual lattice share the grid. -/
abbrev Point := Int × Int

/-- Undirected graph with `Bool` edge weights, mirroring
`petgraph::graphmap::UnGraphMap<(u32, u32), bool>`: nodes and edges are
kept in insertion order, an edge is stored once with the endpoint order
of its first insertion, and lookups treat edges symmetrically. -/
structure Graph where
  nodes : List Point
  edges : List (Point × Point × Bool)
deriving DecidableEq, Repr, Inhabited

/-- Two endpoint pairs denote the same undirected edge. -/
def sameEdge (a b : Point × Point) : Bool :=
  (a.1 == b.1 && a.2 == b.2) || (a.1 == b.2 && a.2 == b.1)

/-- Add a node if it is not present (GraphMap adds missing endpoints). -/
def Graph.addNode (g : Graph) (p : Point) : Graph :=
  if g.nodes.contains p then g else { g with nodes := g.nodes ++ [p] }

/-- GraphMap `add_edge`: inserts missing endpoints; replaces the weight
if the undirected edge is already present, otherwise appends the edge. -/
def Graph.addEdge (g : Graph) (a b : Point) (w : Bool) : Graph :=
  let g := (g.addNode a).addNode b
  if g.edges.any (fun e => sameEdge (e.1, e.2.1) (a, b)) then
    { g with edges := g.edges.map (fun e => if sameEdge (e.1, e.2.1) (a, b) then (e.1, e.2.1, w) else e) }
  else
    { g with edges := g.edges ++ [(a, b, w)] }

/-- GraphMap `edge_weight`. -/
def Graph.edgeWeight (g : Graph) (a b : Point) : Option Bool :=
  (g.edges.find? (fun e => sameEdge (e.1, e.2.1) (a, b))).map (fun e => e.2.2)

/-- GraphMap `neighbors`, in edge-insertion order. -/
def Graph.neighbors (g : Graph) (p : Point) : List Point :=
  g.edges.filterMap (fun e =>
    if e.1 == p then some e.2.1 else if e.2.1 == p then some e.1 else none)

/-- GraphMap `remove_node`: drops the node and its incident edges. -/
def Graph.removeNode (g : Graph) (p : Point) : Graph :=
  { nodes := g.nodes.erase p,
    edges := g.edges.filter (fun e => !(e.1 == p || e.2.1 == p)) }

/-- GraphMap `remove_edge`. -/
def Graph.removeEdge (g : Graph) (a b : Point) : Graph :=
  { g with edges := g.edges.filter (fun e => !(sameEdge (e.1, e.2.1) (a, b))) }

/-- Edges incident to a node, mirroring GraphMap `edges(n)`. -/
def Graph.incidentEdges (g : Graph) (p : Point) : List (Point × Point × Bool) :=
  g.edges.filter (fun e => e.1 == p || e.2.1 == p)

/-- Topology configuration (`config.rs`, `TopologyConfig`). -/
structure TopologyConfig where
  gridWidth : Nat
  gridHeight : Nat
  unusedQubits : List Nat
  unusedCouplers : List (Nat × Nat)
  qubitAtOrigin : Bool
deriving DecidableEq, Repr

/-- Default topology: 12 by 11 grid, nothing unused (`config.rs`). -/
def defaultTopology : TopologyConfig :=
  { gridWidth := 12, gridHeight := 11, unusedQubits := [], unusedCouplers := [], qubitAtOrigin := false }

/-- Whether cell `(x, y)` carries a qubit (`graphmap.rs`, `in_primal`). -/
def inPrimal (x y : Int) (startAtOrigin : Bool) : Bool :=
  if y % 2 == 0 then
    if startAtOrigin then x % 2 == 0 else x % 2 == 1
  else
    if startAtOrigin then x % 2 == 1 else x % 2 == 0

/-- Qubit cells with their row-major ids (`graphmap.rs`: the indexed map
built from `(0..height).cartesian_product(0..width)` filtered by
`in_primal` and enumerated). -/
def qubitsList (cfg : TopologyConfig) : List (Point × Nat) :=
  let cells := (List.range cfg.gridHeight).flatMap (fun y =>
    (List.range cfg.gridWidth).map (fun x => ((Int.ofNat x, Int.ofNat y) : Point)))
  ((cells.filter (fun p => inPrimal p.1 p.2 cfg.qubitAtOrigin)).enum).map (fun ip => (ip.2, ip.1))

/-- Qubit id of a qubit point; the source indexes the map directly,
which cannot miss because edge endpoints are always qubit cells. -/
def qubitId (qs : List (Point × Nat)) (p : Point) : Nat :=
  (((qs.find? (fun q => q.1 == p)).map (fun q => q.2))).getD 0

/-- First edge-building pass of `create_primal`: every qubit not on the
last row adds its two downward diagonal couplers, weight `true`. -/
def primalEdgesPass (cfg : TopologyConfig) (qs : List (Point × Nat)) : Graph :=
  qs.foldl (fun g q =>
    let x := q.1.1
    let y := q.1.2
    if y == (cfg.gridHeight : Int) - 1 then g
    else
      let g := if x > 0 then g.addEdge (x, y) (x - 1, y + 1) true else g
      if x < (cfg.gridWidth : Int) - 1 then g.addEdge (x, y) (x + 1, y + 1) true else g)
    ⟨[], []⟩

/-- Second pass of `create_primal`: mark couplers of unused qubits and
explicitly unused couplers with weight `false`. -/
def markUnusedCouplers (cfg : TopologyConfig) (qs : List (Point × Nat)) (g : Graph) : Graph :=
  { g with edges := g.edges.map (fun e =>
      let i1 := qubitId qs e.1
      let i2 := qubitId qs e.2.1
      if cfg.unusedQubits.contains i1 || cfg.unusedQubits.contains i2
          || cfg.unusedCouplers.contains (i1, i2) || cfg.unusedCouplers.contains (i2, i1) then
        (e.1, e.2.1, false)
      else e) }

/-- Points of the unused qubits, in id-map order (`create_primal`). -/
def unusedQubitPoints (cfg : TopologyConfig) (qs : List (Point × Nat)) : List Point :=
  (qs.filter (fun q => cfg.unusedQubits.contains q.2)).map (fun q => q.1)

/-- Flood fill used to count connected components; fuel-bounded. -/
def floodFill (g : Graph) : Nat → List Point → List Point → List Point
  | 0, _, visited => visited
  | _ + 1, [], visited => visited
  | fuel + 1, p :: frontier, visited =>
    if visited.contains p then floodFill g fuel frontier visited
    else floodFill g fuel (frontier ++ g.neighbors p) (visited ++ [p])

/-- Helper loop for `componentsCount`. -/
def componentsGo (g : Graph) : Nat → List Point → List Point → Nat → Nat
  | 0, _, _, acc => acc
  | _ + 1, [], _, acc => acc
  | fuel + 1, p :: rest, visited, acc =>
    if visited.contains p then componentsGo g fuel rest visited acc
    else componentsGo g fuel rest (floodFill g (g.nodes.length * (g.edges.length + 2) + 2) [p] visited) (acc + 1)

/-- Number of connected components, mirroring petgraph
`connected_components` (isolated nodes count as components). -/
def componentsCount (g : Graph) : Nat :=
  componentsGo g (g.nodes.length + 1) g.nodes [] 0

/-- Verification graph of `verify_single_connected`: a clone of the
primal graph with unused qubit nodes removed and non-real edges removed. -/
def verifyGraph (g : Graph) (unused : List Point) : Graph :=
  let vg := unused.foldl Graph.removeNode g
  g.edges.foldl (fun vg e => if e.2.2 then vg else vg.removeEdge e.1 e.2.1) vg

/-- Dual graph construction (`graphmap.rs`, `create_dual`): the dual of
a primal edge `(q1, q2)` joins routers `(q1.x, q2.y)` and `(q2.x, q1.y)`
with the primal weight. -/
def createDualGraph (primal : Graph) : Graph :=
  primal.edges.foldl (fun d e =>
    d.addEdge (e.1.1, e.2.1.2) (e.2.1.1, e.1.2) e.2.2) ⟨[], []⟩

/-- Recursive boundary propagation (`graphmap.rs`, `try_set_boundary`):
add the point if new, then recurse through its virtual incident edges.
Fuel bounds the recursion depth; the call sites pass more fuel than the
number of dual nodes, which the Rust recursion never exceeds because
every recursive level first appends a previously unseen node. -/
def trySetBoundary (g : Graph) : Nat → Point → List Point → List Point
  | 0, _, acc => acc
  | fuel + 1, p, acc =>
    if acc.contains p then acc
    else
      let acc := acc ++ [p]
      (g.neighbors p).foldl (fun acc nb =>
        if (g.edgeWeight p nb).getD false then acc
        else trySetBoundary g fuel nb acc) acc

/-- Dual boundary computation (`graphmap.rs`, `get_dual_boundary`). -/
def getDualBoundary (g : Graph) (gridWidth gridHeight : Nat) : List Point :=
  let initial := g.nodes.filter (fun p =>
    p.1 == 0 || p.1 == (gridWidth : Int) - 1 || p.2 == 0 || p.2 == (gridHeight : Int) - 1)
  initial.foldl (fun acc p => trySetBoundary g (g.nodes.length + 1) p acc) []

/-- Dangling-node pruning (`graphmap.rs`, `remove_dangling_nodes`):
remove every node all of whose incident edges are non-real, and return
the pruned graph together with the removed nodes. -/
def removeDanglingNodes (g : Graph) : Graph × List Point :=
  let removed := g.nodes.filter (fun n => (g.incidentEdges n).all (fun e => !e.2.2))
  (removed.foldl Graph.removeNode g, removed)

/-- The search graph (`graphmap.rs`, `SearchGraph`), extended with the
topology parameters that the downstream modules read from the graph's
stored configuration (`pattern.rs` reads `graph.config.width`,
`graph.config.height` and `graph.config.qubit_at_origin`). -/
structure SearchGraph where
  gridWidth : Nat
  gridHeight : Nat
  qubitAtOrigin : Bool
  primal : Graph
  dual : Graph
  unusedQubits : List Point
  dualBoundaries : List Point
deriving DecidableEq, Repr, Inhabited

/-- Graph construction (`graphmap.rs`, `SearchGraph::from_config`):
builds the primal graph, checks single-connectedness of the used part
(`none` models the `bail!` error), builds the dual, computes the dual
boundary, prunes dangling dual nodes and drops them from the boundary. -/
def fromConfig (cfg : TopologyConfig) : Option SearchGraph :=
  let qs := qubitsList cfg
  let primal := markUnusedCouplers cfg qs (primalEdgesPass cfg qs)
  let unused := unusedQubitPoints cfg qs
  if componentsCount (verifyGraph primal unused) != 1 then none
  else
    let dual := createDualGraph primal
    let boundaries := getDualBoundary dual cfg.gridWidth cfg.gridHeight
    let pruned := removeDanglingNodes dual
    some
      { gridWidth := cfg.gridWidth
        gridHeight := cfg.gridHeight
        qubitAtOrigin := cfg.qubitAtOrigin
        primal := primal
        dual := pruned.1
        unusedQubits := unused
        dualBoundaries := boundaries.filter (fun n => !(pruned.2.contains n)) }

/-- Lexicographic comparison of points, mirroring the derived `Ord` on
Rust tuples that `n1.min(n2)` and `n1.max(n2)` use. -/
def pLe (a b : Point) : Bool :=
  a.1 < b.1 || (a.1 == b.1 && a.2 ≤ b.2)

/-- Rust `n1.min(n2)` on points. -/
def pMin (a b : Point) : Point := if pLe a b then a else b

/-- Rust `n1.max(n2)` on points. -/
def pMax (a b : Point) : Point := if pLe a b then b else a

/-- Canonical primal edge index (`pattern.rs`, `get_edge_index`):
`(y1 + y2 - 1) / 2 * edgesPerLine + (x1 + x2 - 1) / 2`, computed in
`i32` (truncating division, hence `Int.tdiv`) and cast to `usize`. -/
def getEdgeIndex (n1 n2 : Point) (edgesPerLine : Nat) : Nat :=
  (Int.tdiv (n1.2 + n2.2 - 1) 2 * (edgesPerLine : Int) + Int.tdiv (n1.1 + n2.1 - 1) 2).toNat

/-- Modelled from the spec: the graph method `edge_index` of the module
`graph` is not under `src/`; per the spec (section 3) every primal edge
has the stable index `((y1+y2)/2) * (W-1) + ((x1+x2)/2)`, which is
exactly `get_edge_index(n1, n2, width - 1)` from `pattern.rs`. -/
def SearchGraph.edgeIndex (g : SearchGraph) (n1 n2 : Point) : Nat :=
  getEdgeIndex n1 n2 (g.gridWidth - 1)

/-- Modelled from the spec: the graph method `get_edge` (the inverse of
`edge_index`) is not under `src/`; per the spec (section 4.1) index `i`
denotes the grid cell `(i mod (W-1), i div (W-1))` and the edge is the
diagonal of that cell whose endpoints are qubit cells, oriented by which
candidate endpoint is a qubit. -/
def SearchGraph.getEdge (g : SearchGraph) (i : Nat) : Point × Point :=
  let epl := g.gridWidth - 1
  let cx : Int := Int.ofNat (i % epl)
  let cy : Int := Int.ofNat (i / epl)
  if inPrimal cx cy g.qubitAtOrigin then ((cx, cy), (cx + 1, cy + 1))
  else ((cx, cy + 1), (cx + 1, cy))

/-- Whether a canonicalized primal edge is a "/" diagonal: after sorting
the endpoints lexicographically, the smaller-`x` endpoint has the larger
`y` (`pattern.rs` computes `is_slash` the same way). -/
def isSlashEdge (n1 n2 : Point) : Bool :=
  (pMin n1 n2).2 > (pMax n1 n2).2

/-- Modelled from the spec: the graph query `num_slash` is not under
`src/`; per the spec (section 4.1) it counts the "/" diagonal lines of
the grid. All qubits on one "/" line share the value `x + y`, so the
count is the number of distinct such values over the primal edges. -/
def SearchGraph.numSlash (g : SearchGraph) : Nat :=
  (((g.primal.edges.filter (fun e => isSlashEdge e.1 e.2.1)).map (fun e => e.1.1 + e.1.2)).dedup).length

/-- Modelled from the spec: the graph query `num_back_slash` is not
under `src/`; it counts the "\" diagonal lines, on which `x - y` is
constant. -/
def SearchGraph.numBackSlash (g : SearchGraph) : Nat :=
  (((g.primal.edges.filter (fun e => !(isSlashEdge e.1 e.2.1))).map (fun e => e.1.1 - e.1.2)).dedup).length

/-- Gate order labels (`pattern.rs`, `Order`), with the derived
discriminant order `A < B < C < D`. -/
inductive Order where
  | A
  | B
  | C
  | D
deriving DecidableEq, Repr, Inhabited

/-- Discriminant of an order label. -/
def Order.toNat : Order → Nat
  | .A => 0
  | .B => 1
  | .C => 2
  | .D => 3

/-- Rust `Ord::min` on orders (derived discriminant order). -/
def Order.minO (a b : Order) : Order := if a.toNat ≤ b.toNat then a else b

/-- Rust `Ord::max` on orders. -/
def Order.maxO (a b : Order) : Order := if a.toNat ≤ b.toNat then b else a

/-- Diagonal-line bit index of an edge (`pattern.rs`, `slash_index`).
All arithmetic is `i32`; the divisions are truncating. -/
def slashIndex (n1 n2 : Point) (qubitAtOrigin : Bool) (height : Nat) (nSlash : Nat) : Nat :=
  let p1 := pMin n1 n2
  let p2 := pMax n1 n2
  if isSlashEdge n1 n2 then
    let offset : Int := if qubitAtOrigin then 0 else 1
    (offset + Int.tdiv (p1.1 + p1.2) 2).toNat
  else
    let offset : Int :=
      match qubitAtOrigin, height % 2 with
      | true, 0 => 1
      | false, 1 => 1
      | _, _ => 0
    (offset + Int.tdiv ((height : Int) - 1 - p2.2 + p2.1) 2).toNat + nSlash

/-- Bit pattern (`pattern.rs`, `BitPattern = FixedBitSet`), as the list
of its bits in index order; the list length is the bit-set capacity. -/
abbrev BitPat := List Bool

/-- FixedBitSet indexing, which yields `false` beyond the capacity. -/
def bitAt (p : BitPat) (i : Nat) : Bool := p.getD i false

/-- Pattern look-up context (`pattern.rs`, `Context`). -/
structure Context where
  qubitAtOrigin : Bool
  width : Nat
  height : Nat
  nSlash : Nat
deriving DecidableEq, Repr

/-- Context built from a graph (`pattern.rs`, `Context::from_graph`). -/
def contextFromGraph (g : SearchGraph) : Context :=
  { qubitAtOrigin := g.qubitAtOrigin, width := g.gridWidth, height := g.gridHeight, nSlash := g.numSlash }

/-- BitPattern order look-up (`pattern.rs`, `impl Pattern for BitPattern`):
canonicalize the endpoints, read the global flip bit and the diagonal
bit, compute the intrinsic parity, and map the two resulting bits to an
order label. It always returns `some`. -/
def BitPat.lookUp (p : BitPat) (n1 n2 : Point) (ctx : Context) : Option Order :=
  let a := pMin n1 n2
  let b := pMax n1 n2
  let abFlipCd := bitAt p 0
  let isSlash := a.2 > b.2
  let index := slashIndex a b ctx.qubitAtOrigin ctx.height ctx.nSlash
  let parity0 : Bool :=
    if isSlash then ((a.2 % 2 == 0)).xor ctx.qubitAtOrigin
    else b.1 % 2 == 0
  let parity := parity0.xor (bitAt p index)
  match abFlipCd.xor isSlash, parity with
  | false, false => some Order.C
  | false, true => some Order.D
  | true, false => some Order.A
  | true, true => some Order.B

/-- Per-edge order table (`pattern.rs`, `Pattern::order_vec`): a vector
of length `edge_count`, `none` initially, and the looked-up order stored
at `edge_index(n1, n2)` for every real primal edge. An out-of-range
store would be an index error in Rust; `List.set` ignores it. -/
def orderVec (p : BitPat) (g : SearchGraph) : List (Option Order) :=
  let ctx := contextFromGraph g
  g.primal.edges.foldl (fun ov e =>
    if e.2.2 then ov.set (g.edgeIndex e.1 e.2.1) (p.lookUp e.1 e.2.1 ctx) else ov)
    (List.replicate g.primal.edges.length none)

/-- Character of one bit in the FixedBitSet display form. -/
def bitChar (b : Bool) : Char := if b then '1' else '0'

/-- Pattern string form (`pattern.rs`, `pattern_repr`), over character
lists: `bit0 ++ "_" ++ slashBits ++ "_" ++ flipBit0 ++ "_" ++ rest`,
where `flipBit0` is the complement of bit 0. Rust's `split_at` raises an
error when the pattern is empty or `n_slash` exceeds the remaining
length; `none` models that. -/
def patternRepr (p : BitPat) (nSlash : Nat) : Option (List Char) :=
  let raw := p.map bitChar
  if 1 ≤ raw.length ∧ nSlash ≤ raw.length - 1 then
    let lastFlip : Char := if bitAt p 0 then '0' else '1'
    let first := raw.take 1
    let remain := raw.drop 1
    let middle := remain.take nSlash
    let rest := remain.drop nSlash
    some (first ++ ['_'] ++ middle ++ ['_'] ++ [lastFlip] ++ ['_'] ++ rest)
  else none

/-- Split a character list at underscores, modelling Rust's
`str::split('_')` (which yields the, possibly empty, fragments between
separator occurrences). -/
def splitUnderscore : List Char → List (List Char)
  | [] => [[]]
  | c :: rest =>
    if c = '_' then [] :: splitUnderscore rest
    else
      match splitUnderscore rest with
      | [] => [[c]]
      | grp :: gs => (c :: grp) :: gs

/-- Pattern parsing (`pattern.rs`, `pattern_from_repr`): split on
underscores, join fragments 0, 1 and 3 (dropping the redundant flip
bit), and set the bits at the positions of the `'1'` characters in a
fresh bit set whose capacity is the joined length. Rust indexes the
fragment vector directly; `getD []` models the absent-fragment error. -/
def patternFromRepr (r : List Char) : BitPat :=
  let s := splitUnderscore r
  let binStr := s.getD 0 [] ++ s.getD 1 [] ++ s.getD 3 []
  binStr.map (fun c => c == '1')

/-- A cut (`cutline.rs`, `Cutline`): primal edge list plus unbalance. -/
structure Cutline where
  split : List (Point × Point)
  unbalance : Nat
deriving DecidableEq, Repr

/-- A wrapped cut (`cutline.rs`, `CutlineWrapped`): real cut-edge index
list plus precomputed wedge and DCD candidate index pairs. -/
structure CutlineWrapped where
  split : List Nat
  unbalance : Nat
  wedgeCandidates : List (Nat × Nat)
  dcdCandidates : List (Nat × Nat)
deriving DecidableEq, Repr, Inhabited

/-- Ordered pairs of list elements at increasing positions, mirroring
itertools `combinations(2)`. -/
def pairsOf : List α → List (α × α)
  | [] => []
  | a :: t => (t.map (fun b => (a, b))) ++ pairsOf t

/-- Cut wrapping (`cutline.rs`, `Cutline::into_wrapped`): keep the real
split edges (Rust unwraps the edge weight, so a split edge absent from
the graph would be an error; `getD false` drops it), then compute wedge
candidates (pairs of split edges sharing an endpoint) and DCD candidates
(for each split edge, the real diagonal extension past one endpoint when
the extension past the other endpoint is virtual or absent). -/
def intoWrapped (c : Cutline) (g : SearchGraph) : CutlineWrapped :=
  let split := c.split.filter (fun e => (g.primal.edgeWeight e.1 e.2).getD false)
  let wedgeCandidates := (pairsOf split).filterMap (fun pr =>
    let e1 := pr.1
    let e2 := pr.2
    if e1.1 == e2.1 || e1.1 == e2.2 || e1.2 == e2.1 || e1.2 == e2.2 then
      some (g.edgeIndex e1.1 e1.2, g.edgeIndex e2.1 e2.2)
    else none)
  let dcdCandidates := split.filterMap (fun e =>
    let n1 := e.1
    let n2 := e.2
    let inc1 : Point := (2 * n1.1 - n2.1, 2 * n1.2 - n2.2)
    let inc2 : Point := (2 * n2.1 - n1.1, 2 * n2.2 - n1.2)
    match g.primal.edgeWeight n1 inc1, g.primal.edgeWeight n2 inc2 with
    | some true, some false => some (g.edgeIndex n1 n2, g.edgeIndex inc1 n1)
    | some true, none => some (g.edgeIndex n1 n2, g.edgeIndex inc1 n1)
    | some false, some true => some (g.edgeIndex n1 n2, g.edgeIndex n2 inc2)
    | none, some true => some (g.edgeIndex n1 n2, g.edgeIndex n2 inc2)
    | _, _ => none)
  { split := split.map (fun e => g.edgeIndex e.1 e.2)
    unbalance := c.unbalance
    wedgeCandidates := wedgeCandidates
    dcdCandidates := dcdCandidates }

/-- Unwrapping (`cutline.rs`, `Cutline::from_wrapper`). -/
def fromWrapper (cw : CutlineWrapped) (g : SearchGraph) : Cutline :=
  { split := cw.split.map (fun e => g.getEdge e), unbalance := cw.unbalance }

/-- Real-edge count of a dual path (`cutline.rs`, `compute_depth`): the
sum over consecutive path nodes of the edge weight cast to an integer.
Rust unwraps the weight; consecutive path nodes are always adjacent in
the runs performed, and `getD false` models the absent case. -/
def computeDepth (g : Graph) : List Point → Nat
  | a :: b :: rest => (if (g.edgeWeight a b).getD false then 1 else 0) + computeDepth g (b :: rest)
  | _ => 0

/-- First element satisfying the predicate together with the remainder
of the list after it, modelling `Iterator::find` (which consumes the
iterator up to and including the found element). -/
def findSplit (p : α → Bool) : List α → Option (α × List α)
  | [] => none
  | a :: t => if p a then some (a, t) else findSplit p t

/-- One step-at-a-time embedding of the iterative DFS inside
`search_paths_between` (`cutline.rs`): `visited` is the current path,
`stack` holds, innermost frame first, the unconsumed neighbor iterators,
and the function returns the list of all paths the Rust generator yields
from this state on. Fuel bounds the number of loop iterations; every
theorem below holds for every fuel, and concrete runs receive more fuel
than they consume. -/
def searchLoop (g : Graph) (boundaries tos : List Point) (minL maxL : Nat) :
    Nat → List Point → List (List Point) → List (List Point)
  | 0, _, _ => []
  | _ + 1, _, [] => []
  | fuel + 1, visited, children :: restStack =>
    match children with
    | [] => searchLoop g boundaries tos minL maxL fuel visited.dropLast restStack
    | child :: cs =>
      let depth := computeDepth g visited
      if depth + 1 < maxL then
        if tos.contains child then
          (if minL ≤ depth + 1 then [visited ++ [child]] else []) ++
            searchLoop g boundaries tos minL maxL fuel visited (cs :: restStack)
        else if !(boundaries.contains child) && !(visited.contains child) then
          searchLoop g boundaries tos minL maxL fuel (visited ++ [child]) (g.neighbors child :: cs :: restStack)
        else
          searchLoop g boundaries tos minL maxL fuel visited (cs :: restStack)
      else
        match findSplit (fun c => tos.contains c) (child :: cs) with
        | some (c, rest) =>
          (visited ++ [c]) :: searchLoop g boundaries tos minL maxL fuel visited (rest :: restStack)
        | none => searchLoop g boundaries tos minL maxL fuel visited.dropLast restStack

/-- Depth-bounded dual path search (`cutline.rs`, `search_paths_between`):
all simple dual paths from `src` to a node of `tos` collected from the
generator, starting from the frame of `src` alone. -/
def searchPathsBetween (sg : SearchGraph) (src : Point) (tos : List Point) (minL maxL fuel : Nat) :
    List (List Point) :=
  searchLoop sg.dual sg.dualBoundaries tos minL maxL fuel [src] [sg.dual.neighbors src]

/-- Algorithm configuration (`config.rs`, `AlgorithmConfig`). -/
structure AlgorithmConfig where
  circuitDepth : Nat
  minSearchDepth : Nat
  maxSearchDepth : Nat
  maxUnbalance : Nat
  ordering : List Order
deriving DecidableEq, Repr

/-- Default algorithm configuration (`config.rs` builder defaults):
`circuit_depth = 20`, search depths 2 and 10, `max_unbalance = 11`,
ordering `ABCDCDAB`. -/
def defaultAlgorithmConfig : AlgorithmConfig :=
  { circuitDepth := 20
    minSearchDepth := 2
    maxSearchDepth := 10
    maxUnbalance := 11
    ordering := [Order.A, Order.B, Order.C, Order.D, Order.C, Order.D, Order.A, Order.B] }

/-- Helper for `fullOrdering`: take `n` elements from the endless cyclic
repetition of `orig`, with `rest` the not-yet-consumed tail of the
current repetition (Rust `iter().cycle().take(n)`; an empty `orig`
yields nothing). -/
def cycleTakeAux : Nat → List α → List α → List α
  | 0, _, _ => []
  | _ + 1, [], [] => []
  | n + 1, [], a :: orig => a :: cycleTakeAux n orig (a :: orig)
  | n + 1, a :: rest, orig => a :: cycleTakeAux n rest orig

/-- Beat sequence of length `circuit_depth` (`config.rs`,
`AlgorithmConfig::full_ordering`): the configured ordering repeated
cyclically and truncated to `circuit_depth`. -/
def fullOrdering (cfg : AlgorithmConfig) : List Order :=
  cycleTakeAux cfg.circuitDepth cfg.ordering cfg.ordering

/-- Cost record of one (pattern, cut) evaluation (`cost.rs`, `Cost`). -/
structure Cost where
  gates : Nat
  startEnd : Nat
  wedge : Nat
  dcd : Nat
  unbalance : Nat
deriving DecidableEq, Repr

/-- Elementary order pair test used by both window scans (`cost.rs`,
`OrderInfo::new`): a window is elementary when the sorted pair is
`(A, B)` or `(C, D)`. -/
def elementaryPair (o1 o2 : Order) : Bool :=
  match Order.minO o1 o2, Order.maxO o1 o2 with
  | Order.A, Order.B => true
  | Order.C, Order.D => true
  | _, _ => false

/-- Consecutive pairs of a list (`windows(2)` with positions implied). -/
def windows2 (l : List α) : List (α × α) := l.zip (l.drop 1)

/-- Consecutive triples of a list (`windows(3)`). -/
def windows3 (l : List α) : List (α × α × α) := l.zip ((l.drop 1).zip (l.drop 2))

/-- Interesting wedge windows (`cost.rs`, `OrderInfo::new`): positions
`i` whose beat pair `(ordering[i], ordering[i+1])` is not elementary. -/
def potentialWedges (ordering : List Order) : List (Nat × Order × Order) :=
  ((windows2 ordering).enum).filterMap (fun iw =>
    if elementaryPair iw.2.1 iw.2.2 then none else some (iw.1, iw.2.1, iw.2.2))

/-- Interesting DCD windows (`cost.rs`, `OrderInfo::new`): positions `i`
with `ordering[i] = ordering[i+2]` and an elementary pair
`(ordering[i], ordering[i+1])`. -/
def potentialDcds (ordering : List Order) : List (Nat × Order × Order) :=
  ((windows3 ordering).enum).filterMap (fun iw =>
    if iw.2.1 ≠ iw.2.2.2 then none
    else if elementaryPair iw.2.1 iw.2.2.1 then some (iw.1, iw.2.1, iw.2.2.1) else none)

/-- Precomputed ordering data (`cost.rs`, `OrderInfo`). The per-order
beat counts are the function form of the `[usize; 4]` array that
`OrderInfo::new` accumulates by iterating the ordering. -/
structure OrderInfo where
  ordering : List Order
  orderCounts : Order → Nat
  potWedges : List (Nat × Order × Order)
  potDcds : List (Nat × Order × Order)

/-- Construction of the ordering data (`cost.rs`, `OrderInfo::new`). -/
def orderInfoNew (ordering : List Order) : OrderInfo :=
  { ordering := ordering
    orderCounts := fun o => ordering.count o
    potWedges := potentialWedges ordering
    potDcds := potentialDcds ordering }

/-- The used-slot board (`cost.rs`, `UsedBoard`): the Rust bit set keyed
by `beat * edge_count + edge` becomes the set of claimed
`(beat, edge)` pairs; the encoding is injective for the in-range edge
indices the evaluator uses. -/
abbrev Board := Finset (Nat × Nat)

/-- Order of a cut edge from the order table (`order_vec[e].unwrap()`).
Rust raises an error when the entry is absent or `None`; the default
`Order.A` is only reachable on inputs where Rust would have stopped. -/
def getOrd (ov : List (Option Order)) (e : Nat) : Order :=
  (ov.getD e none).getD Order.A

/-- Claim attempt of one oriented wedge (`cost.rs`, wedge loop body):
if neither slot is used, mark `(i, a)` and `(i+1, b)` used and count. -/
def wedgeTry (i a b : Nat) (st : Board × Nat) : Board × Nat :=
  if (i, a) ∉ st.1 ∧ (i + 1, b) ∉ st.1 then
    (insert (i, a) (insert (i + 1, b) st.1), st.2 + 1)
  else st

/-- One wedge candidate at one window (`cost.rs`): try the orientation
`(e1, e2)` first; the loop breaks after the first orientation whose
orders match, whether or not the slots were free. -/
def wedgeOne (ov : List (Option Order)) (i : Nat) (o1 o2 : Order) (e1 e2 : Nat) (st : Board × Nat) :
    Board × Nat :=
  if getOrd ov e1 = o1 ∧ getOrd ov e2 = o2 then wedgeTry i e1 e2 st
  else if getOrd ov e2 = o1 ∧ getOrd ov e1 = o2 then wedgeTry i e2 e1 st
  else st

/-- The wedge fusion pass (`cost.rs`): all windows, then all candidates. -/
def wedgePass (ov : List (Option Order)) (pw : List (Nat × Order × Order))
    (wc : List (Nat × Nat)) (st : Board × Nat) : Board × Nat :=
  pw.foldl (fun st w => wc.foldl (fun st pr => wedgeOne ov w.1 w.2.1 w.2.2 pr.1 pr.2 st) st) st

/-- One DCD candidate at one window (`cost.rs`, DCD loop body): matching
orders and three free slots claim `(i, e1)`, `(i+2, e1)`, `(i+1, e2)`
and count 1, plus 1 more when the outside edge is itself on the cut. -/
def dcdOne (ov : List (Option Order)) (split : List Nat) (i : Nat) (o1 o2 : Order)
    (e1 e2 : Nat) (st : Board × Nat) : Board × Nat :=
  if getOrd ov e1 = o1 ∧ getOrd ov e2 = o2 ∧
      (i, e1) ∉ st.1 ∧ (i + 2, e1) ∉ st.1 ∧ (i + 1, e2) ∉ st.1 then
    (insert (i, e1) (insert (i + 2, e1) (insert (i + 1, e2) st.1)),
      st.2 + 1 + (if split.contains e2 then 1 else 0))
  else st

/-- The DCD fusion pass (`cost.rs`). -/
def dcdPass (ov : List (Option Order)) (split : List Nat) (pd : List (Nat × Order × Order))
    (dc : List (Nat × Nat)) (st : Board × Nat) : Board × Nat :=
  pd.foldl (fun st w => dc.foldl (fun st pr => dcdOne ov split w.1 w.2.1 w.2.2 pr.1 pr.2 st) st) st

/-- One cut edge in the start/end elision loop (`cost.rs`): claim beat 0
when the edge carries the start order and the slot is free, then claim
the last beat when it carries the end order and that slot is free. -/
def seOne (ov : List (Option Order)) (startO endO : Order) (depth e : Nat) (st : Board × Nat) :
    Board × Nat :=
  let st :=
    if getOrd ov e = startO ∧ (0, e) ∉ st.1 then (insert (0, e) st.1, st.2 + 1) else st
  if getOrd ov e = endO ∧ (depth, e) ∉ st.1 then (insert (depth, e) st.1, st.2 + 1) else st

/-- The start/end elision pass (`cost.rs`). -/
def sePass (ov : List (Option Order)) (split : List Nat) (startO endO : Order) (depth : Nat)
    (st : Board × Nat) : Board × Nat :=
  split.foldl (fun st e => seOne ov startO endO depth e st) st

/-- Gate count of a cut (`cost.rs`, the `length` sum in
`cost_for_cutline`): the sum over split edges of the beat count of the
edge's order. -/
def gateCount (ov : List (Option Order)) (info : OrderInfo) (split : List Nat) : Nat :=
  (split.map (fun e => info.orderCounts (getOrd ov e))).sum

/-- Cost evaluation of one (pattern, cut) pair (`cost.rs`,
`cost_for_cutline`): the gate count, then the wedge pass, then the DCD
pass, then the start/end elision pass, all three passes sharing one
used-slot board that starts empty (the Rust board is reset at the end
of the previous call). `ordering.first()` and `last()` are unwrapped in
Rust; the default `Order.A` is only reachable for an empty ordering. -/
def costForCutline (ov : List (Option Order)) (cw : CutlineWrapped) (info : OrderInfo) : Cost :=
  let gates := gateCount ov info cw.split
  let stW := wedgePass ov info.potWedges cw.wedgeCandidates (∅, 0)
  let stD := dcdPass ov cw.split info.potDcds cw.dcdCandidates (stW.1, 0)
  let startO := info.ordering.headD Order.A
  let endO := info.ordering.getLastD Order.A
  let depth := info.ordering.length - 1
  let stS := sePass ov cw.split startO endO depth (stD.1, 0)
  { gates := gates, startEnd := stS.2, wedge := stW.2, dcd := stD.2, unbalance := cw.unbalance }

/-- Specification-ordered variant of the cost evaluation, written from
the spec's words (section 4.4): start/end elision applied first, wedge
fusion second, DCD fusion third, on one shared used-slot board. This
definition exists to be compared with `costForCutline`, which follows
the source. -/
def costForCutlineSpecOrder (ov : List (Option Order)) (cw : CutlineWrapped) (info : OrderInfo) :
    Cost :=
  let gates := gateCount ov info cw.split
  let startO := info.ordering.headD Order.A
  let endO := info.ordering.getLastD Order.A
  let depth := info.ordering.length - 1
  let stS := sePass ov cw.split startO endO depth (∅, 0)
  let stW := wedgePass ov info.potWedges cw.wedgeCandidates (stS.1, 0)
  let stD := dcdPass ov cw.split info.potDcds cw.dcdCandidates (stW.1, 0)
  { gates := gates, startEnd := stS.2, wedge := stW.2, dcd := stD.2, unbalance := cw.unbalance }

/-- First minimum of an enumerated cost list under a comparator,
mirroring `Iterator::min_by` (which keeps the earlier element on ties).
The comparator abstracts the `f64` comparison
`c1.cost().partial_cmp(&c2.cost()).unwrap()` of the source; the claims
settled here do not depend on floating-point rounding. -/
def minByEnum (cmpC : Cost → Cost → Ordering) (l : List (Nat × Cost)) : Option (Nat × Cost) :=
  l.foldl (fun acc x =>
    match acc with
    | none => some x
    | some y => if cmpC x.2 y.2 = Ordering.lt then some x else acc) none

/-- Minimum cost of one pattern across all wrapped cuts (`cost.rs`,
`calculate_min_cost`): build the order table once, evaluate every cut,
and take the arg-min. Rust unwraps the `min_by` result, which is `None`
exactly when the cut list is empty; `none` models that error. -/
def calculateMinCost (cmpC : Cost → Cost → Ordering) (g : SearchGraph) (pattern : BitPat)
    (cutlines : List CutlineWrapped) (info : OrderInfo) : Option (Nat × Cost) :=
  let ov := orderVec pattern g
  minByEnum cmpC ((cutlines.map (fun cw => costForCutline ov cw info)).enum.map (fun ic => ic))

/-- All maximal elements under a comparator, in input order, mirroring
itertools `max_set_by`. -/
def maxSetByCost (cmpC : Cost → Cost → Ordering) (l : List (BitPat × Nat × Cost)) :
    List (BitPat × Nat × Cost) :=
  l.foldl (fun acc x =>
    match acc with
    | [] => [x]
    | y :: _ =>
      match cmpC x.2.2 y.2.2 with
      | Ordering.gt => [x]
      | Ordering.eq => acc ++ [x]
      | Ordering.lt => acc) []

/-- A result record (`cost.rs`, `Record`). -/
structure Record where
  pattern : BitPat
  cutline : Cutline
  cost : Cost
deriving DecidableEq, Repr

/-- The max-min driver (`cost.rs`, `max_min_cost`): read the beat
sequence from `algorithm_config.ordering`, precompute the ordering data,
wrap all cuts, map every pattern to its arg-min cost over the cuts, and
return the records of all patterns attaining the maximal minimum. The
progress bar of the source is presentation only. `none` models the
error raised inside `calculate_min_cost` on an empty cut list. -/
def maxMinCost (cmpC : Cost → Cost → Ordering) (g : SearchGraph) (patterns : List BitPat)
    (cutlines : List Cutline) (cfg : AlgorithmConfig) : Option (List Record) :=
  let info := orderInfoNew cfg.ordering
  let cw := cutlines.map (fun c => intoWrapped c g)
  match patterns.mapM (fun p => (calculateMinCost cmpC g p cw info).map (fun ic => (p, ic))) with
  | none => none
  | some costs =>
    some ((maxSetByCost cmpC costs).map (fun x =>
      { pattern := x.1, cutline := fromWrapper (cw.getD x.2.1 default) g, cost := x.2.2 }))

/-- Bits of a number as a `BitPattern`
(`BitPattern::with_capacity_and_blocks(n_bits, vec![n])`). -/
def natToBitPat (nBits n : Nat) : BitPat :=
  (List.range nBits).map (fun i => n.testBit i)

/-- Width of the pattern bit vector: `1 + num_slash + num_back_slash`
(`search_pattern.rs`). -/
def nBits (g : SearchGraph) : Nat := 1 + g.numSlash + g.numBackSlash

/-- Dead diagonal indices (`search_pattern.rs`, `dead_slash_indices`):
the bit indices in `1 ..= num_slash + num_back_slash` that no real
primal edge maps to under `slash_index`. -/
def deadSlashIndices (g : SearchGraph) : List Nat :=
  (List.range' 1 (g.numSlash + g.numBackSlash)).filter (fun i =>
    !(g.primal.edges.any (fun e =>
      e.2.2 && (slashIndex e.1 e.2.1 g.qubitAtOrigin g.gridHeight g.numSlash == i))))

/-- Bit-pattern enumeration (`search_pattern.rs`, `search_bit_patterns`):
with fewer than 32 bits, iterate `0 ..= 2^n_bits - 1` and keep the
numbers none of whose dead-diagonal bits are set; `none` models the
explicit panic for 32 or more bits. -/
def searchBitPatterns (g : SearchGraph) : Option (List BitPat) :=
  if 32 ≤ nBits g then none
  else
    some (((List.range (2 ^ nBits g)).filter (fun n =>
      (deadSlashIndices g).all (fun i => n &&& (1 <<< i) == 0))).map (natToBitPat (nBits g)))

/-- Computed value of `fromConfig defaultTopology`, established by `fromConfig_default` below. -/
def gDefLit : SearchGraph :=
  { gridWidth := 12,
    gridHeight := 11,
    qubitAtOrigin := false,
    primal := { nodes := [(1, 0), (0, 1), (2, 1), (3, 0), (4, 1), (5, 0), (6, 1), (7, 0), (8, 1), (9, 0), (10, 1), (11, 0), (1, 2), (3, 2), (5, 2), (7, 2), (9, 2), (11, 2), (0, 3), (2, 3), (4, 3), (6, 3), (8, 3), (10, 3), (1, 4), (3, 4), (5, 4), (7, 4), (9, 4), (11, 4), (0, 5), (2, 5), (4, 5), (6, 5), (8, 5), (10, 5), (1, 6), (3, 6), (5, 6), (7, 6), (9, 6), (11, 6), (0, 7), (2, 7), (4, 7), (6, 7), (8, 7), (10, 7), (1, 8), (3, 8), (5, 8), (7, 8), (9, 8), (11, 8), (0, 9), (2, 9), (4, 9), (6, 9), (8, 9), (10, 9), (1, 10), (3, 10), (5, 10), (7, 10), (9, 10), (11, 10)], edges := [((1, 0), (0, 1), true), ((1, 0), (2, 1), true), ((3, 0), (2, 1), true), ((3, 0), (4, 1), true), ((5, 0), (4, 1), true), ((5, 0), (6, 1), true), ((7, 0), (6, 1), true), ((7, 0), (8, 1), true), ((9, 0), (8, 1), true), ((9, 0), (10, 1), true), ((11, 0), (10, 1), true), ((0, 1), (1, 2), true), ((2, 1), (1, 2), true), ((2, 1), (3, 2), true), ((4, 1), (3, 2), true), ((4, 1), (5, 2), true), ((6, 1), (5, 2), true), ((6, 1), (7, 2), true), ((8, 1), (7, 2), true), ((8, 1), (9, 2), true), ((10, 1), (9, 2), true), ((10, 1), (11, 2), true), ((1, 2), (0, 3), true), ((1, 2), (2, 3), true), ((3, 2), (2, 3), true), ((3, 2), (4, 3), true), ((5, 2), (4, 3), true), ((5, 2), (6, 3), true), ((7, 2), (6, 3), true), ((7, 2), (8, 3), true), ((9, 2), (8, 3), true), ((9, 2), (10, 3), true), ((11, 2), (10, 3), true), ((0, 3), (1, 4), true), ((2, 3), (1, 4), true), ((2, 3), (3, 4), true), ((4, 3), (3, 4), true), ((4, 3), (5, 4), true), ((6, 3), (5, 4), true), ((6, 3), (7, 4), true), ((8, 3), (7, 4), true), ((8, 3), (9, 4), true), ((10, 3), (9, 4), true), ((10, 3), (11, 4), true), ((1, 4), (0, 5), true), ((1, 4), (2, 5), true), ((3, 4), (2, 5), true), ((3, 4), (4, 5), true), ((5, 4), (4, 5), true), ((5, 4), (6, 5), true), ((7, 4), (6, 5), true), ((7, 4), (8, 5), true), ((9, 4), (8, 5), true), ((9, 4), (10, 5), true), ((11, 4), (10, 5), true), ((0, 5), (1, 6), true), ((2, 5), (1, 6), true), ((2, 5), (3, 6), true), ((4, 5), (3, 6), true), ((4, 5), (5, 6), true), ((6, 5), (5, 6), true), ((6, 5), (7, 6), true), ((8, 5), (7, 6), true), ((8, 5), (9, 6), true), ((10, 5), (9, 6), true), ((10, 5), (11, 6), true), ((1, 6), (0, 7), true), ((1, 6), (2, 7), true), ((3, 6), (2, 7), true), ((3, 6), (4, 7), true), ((5, 6), (4, 7), true), ((5, 6), (6, 7), true), ((7, 6), (6, 7), true), ((7, 6), (8, 7), true), ((9, 6), (8, 7), true), ((9, 6), (10, 7), true), ((11, 6), (10, 7), true), ((0, 7), (1, 8), true), ((2, 7), (1, 8), true), ((2, 7), (3, 8), true), ((4, 7), (3, 8), true), ((4, 7), (5, 8), true), ((6, 7), (5, 8), true), ((6, 7), (7, 8), true), ((8, 7), (7, 8), true), ((8, 7), (9, 8), true), ((10, 7), (9, 8), true), ((10, 7), (11, 8), true), ((1, 8), (0, 9), true), ((1, 8), (2, 9), true), ((3, 8), (2, 9), true), ((3, 8), (4, 9), true), ((5, 8), (4, 9), true), ((5, 8), (6, 9), true), ((7, 8), (6, 9), true), ((7, 8), (8, 9), true), ((9, 8), (8, 9), true), ((9, 8), (10, 9), true), ((11, 8), (10, 9), true), ((0, 9), (1, 10), true), ((2, 9), (1, 10), true), ((2, 9), (3, 10), true), ((4, 9), (3, 10), true), ((4, 9), (5, 10), true), ((6, 9), (5, 10), true), ((6, 9), (7, 10), true), ((8, 9), (7, 10), true), ((8, 9), (9, 10), true), ((10, 9), (9, 10), true), ((10, 9), (11, 10), true)] },
    dual := { nodes := [(1, 1), (0, 0), (2, 0), (3, 1), (4, 0), (5, 1), (6, 0), (7, 1), (8, 0), (9, 1), (10, 0), (11, 1), (0, 2), (2, 2), (4, 2), (6, 2), (8, 2), (10, 2), (1, 3), (3, 3), (5, 3), (7, 3), (9, 3), (11, 3), (0, 4), (2, 4), (4, 4), (6, 4), (8, 4), (10, 4), (1, 5), (3, 5), (5, 5), (7, 5), (9, 5), (11, 5), (0, 6), (2, 6), (4, 6), (6, 6), (8, 6), (10, 6), (1, 7), (3, 7), (5, 7), (7, 7), (9, 7), (11, 7), (0, 8), (2, 8), (4, 8), (6, 8), (8, 8), (10, 8), (1, 9), (3, 9), (5, 9), (7, 9), (9, 9), (11, 9), (0, 10), (2, 10), (4, 10), (6, 10), (8, 10), (10, 10)], edges := [((1, 1), (0, 0), true), ((1, 1), (2, 0), true), ((3, 1), (2, 0), true), ((3, 1), (4, 0), true), ((5, 1), (4, 0), true), ((5, 1), (6, 0), true), ((7, 1), (6, 0), true), ((7, 1), (8, 0), true), ((9, 1), (8, 0), true), ((9, 1), (10, 0), true), ((11, 1), (10, 0), true), ((0, 2), (1, 1), true), ((2, 2), (1, 1), true), ((2, 2), (3, 1), true), ((4, 2), (3, 1), true), ((4, 2), (5, 1), true), ((6, 2), (5, 1), true), ((6, 2), (7, 1), true), ((8, 2), (7, 1), true), ((8, 2), (9, 1), true), ((10, 2), (9, 1), true), ((10, 2), (11, 1), true), ((1, 3), (0, 2), true), ((1, 3), (2, 2), true), ((3, 3), (2, 2), true), ((3, 3), (4, 2), true), ((5, 3), (4, 2), true), ((5, 3), (6, 2), true), ((7, 3), (6, 2), true), ((7, 3), (8, 2), true), ((9, 3), (8, 2), true), ((9, 3), (10, 2), true), ((11, 3), (10, 2), true), ((0, 4), (1, 3), true), ((2, 4), (1, 3), true), ((2, 4), (3, 3), true), ((4, 4), (3, 3), true), ((4, 4), (5, 3), true), ((6, 4), (5, 3), true), ((6, 4), (7, 3), true), ((8, 4), (7, 3), true), ((8, 4), (9, 3), true), ((10, 4), (9, 3), true), ((10, 4), (11, 3), true), ((1, 5), (0, 4), true), ((1, 5), (2, 4), true), ((3, 5), (2, 4), true), ((3, 5), (4, 4), true), ((5, 5), (4, 4), true), ((5, 5), (6, 4), true), ((7, 5), (6, 4), true), ((7, 5), (8, 4), true), ((9, 5), (8, 4), true), ((9, 5), (10, 4), true), ((11, 5), (10, 4), true), ((0, 6), (1, 5), true), ((2, 6), (1, 5), true), ((2, 6), (3, 5), true), ((4, 6), (3, 5), true), ((4, 6), (5, 5), true), ((6, 6), (5, 5), true), ((6, 6), (7, 5), true), ((8, 6), (7, 5), true), ((8, 6), (9, 5), true), ((10, 6), (9, 5), true), ((10, 6), (11, 5), true), ((1, 7), (0, 6), true), ((1, 7), (2, 6), true), ((3, 7), (2, 6), true), ((3, 7), (4, 6), true), ((5, 7), (4, 6), true), ((5, 7), (6, 6), true), ((7, 7), (6, 6), true), ((7, 7), (8, 6), true), ((9, 7), (8, 6), true), ((9, 7), (10, 6), true), ((11, 7), (10, 6), true), ((0, 8), (1, 7), true), ((2, 8), (1, 7), true), ((2, 8), (3, 7), true), ((4, 8), (3, 7), true), ((4, 8), (5, 7), true), ((6, 8), (5, 7), true), ((6, 8), (7, 7), true), ((8, 8), (7, 7), true), ((8, 8), (9, 7), true), ((10, 8), (9, 7), true), ((10, 8), (11, 7), true), ((1, 9), (0, 8), true), ((1, 9), (2, 8), true), ((3, 9), (2, 8), true), ((3, 9), (4, 8), true), ((5, 9), (4, 8), true), ((5, 9), (6, 8), true), ((7, 9), (6, 8), true), ((7, 9), (8, 8), true), ((9, 9), (8, 8), true), ((9, 9), (10, 8), true), ((11, 9), (10, 8), true), ((0, 10), (1, 9), true), ((2, 10), (1, 9), true), ((2, 10), (3, 9), true), ((4, 10), (3, 9), true), ((4, 10), (5, 9), true), ((6, 10), (5, 9), true), ((6, 10), (7, 9), true), ((8, 10), (7, 9), true), ((8, 10), (9, 9), true), ((10, 10), (9, 9), true), ((10, 10), (11, 9), true)] },
    unusedQubits := [],
    dualBoundaries := [(0, 0), (2, 0), (4, 0), (6, 0), (8, 0), (10, 0), (11, 1), (0, 2), (11, 3), (0, 4), (11, 5), (0, 6), (11, 7), (0, 8), (11, 9), (0, 10), (2, 10), (4, 10), (6, 10), (8, 10), (10, 10)] }

/-- Computed value of `fromConfig` for the default lattice with qubit 6 unused, established by `fromConfig_topo6` below. -/
def g6Lit : SearchGraph :=
  { gridWidth := 12,
    gridHeight := 11,
    qubitAtOrigin := false,
    primal := { nodes := [(1, 0), (0, 1), (2, 1), (3, 0), (4, 1), (5, 0), (6, 1), (7, 0), (8, 1), (9, 0), (10, 1), (11, 0), (1, 2), (3, 2), (5, 2), (7, 2), (9, 2), (11, 2), (0, 3), (2, 3), (4, 3), (6, 3), (8, 3), (10, 3), (1, 4), (3, 4), (5, 4), (7, 4), (9, 4), (11, 4), (0, 5), (2, 5), (4, 5), (6, 5), (8, 5), (10, 5), (1, 6), (3, 6), (5, 6), (7, 6), (9, 6), (11, 6), (0, 7), (2, 7), (4, 7), (6, 7), (8, 7), (10, 7), (1, 8), (3, 8), (5, 8), (7, 8), (9, 8), (11, 8), (0, 9), (2, 9), (4, 9), (6, 9), (8, 9), (10, 9), (1, 10), (3, 10), (5, 10), (7, 10), (9, 10), (11, 10)], edges := [((1, 0), (0, 1), false), ((1, 0), (2, 1), true), ((3, 0), (2, 1), true), ((3, 0), (4, 1), true), ((5, 0), (4, 1), true), ((5, 0), (6, 1), true), ((7, 0), (6, 1), true), ((7, 0), (8, 1), true), ((9, 0), (8, 1), true), ((9, 0), (10, 1), true), ((11, 0), (10, 1), true), ((0, 1), (1, 2), false), ((2, 1), (1, 2), true), ((2, 1), (3, 2), true), ((4, 1), (3, 2), true), ((4, 1), (5, 2), true), ((6, 1), (5, 2), true), ((6, 1), (7, 2), true), ((8, 1), (7, 2), true), ((8, 1), (9, 2), true), ((10, 1), (9, 2), true), ((10, 1), (11, 2), true), ((1, 2), (0, 3), true), ((1, 2), (2, 3), true), ((3, 2), (2, 3), true), ((3, 2), (4, 3), true), ((5, 2), (4, 3), true), ((5, 2), (6, 3), true), ((7, 2), (6, 3), true), ((7, 2), (8, 3), true), ((9, 2), (8, 3), true), ((9, 2), (10, 3), true), ((11, 2), (10, 3), true), ((0, 3), (1, 4), true), ((2, 3), (1, 4), true), ((2, 3), (3, 4), true), ((4, 3), (3, 4), true), ((4, 3), (5, 4), true), ((6, 3), (5, 4), true), ((6, 3), (7, 4), true), ((8, 3), (7, 4), true), ((8, 3), (9, 4), true), ((10, 3), (9, 4), true), ((10, 3), (11, 4), true), ((1, 4), (0, 5), true), ((1, 4), (2, 5), true), ((3, 4), (2, 5), true), ((3, 4), (4, 5), true), ((5, 4), (4, 5), true), ((5, 4), (6, 5), true), ((7, 4), (6, 5), true), ((7, 4), (8, 5), true), ((9, 4), (8, 5), true), ((9, 4), (10, 5), true), ((11, 4), (10, 5), true), ((0, 5), (1, 6), true), ((2, 5), (1, 6), true), ((2, 5), (3, 6), true), ((4, 5), (3, 6), true), ((4, 5), (5, 6), true), ((6, 5), (5, 6), true), ((6, 5), (7, 6), true), ((8, 5), (7, 6), true), ((8, 5), (9, 6), true), ((10, 5), (9, 6), true), ((10, 5), (11, 6), true), ((1, 6), (0, 7), true), ((1, 6), (2, 7), true), ((3, 6), (2, 7), true), ((3, 6), (4, 7), true), ((5, 6), (4, 7), true), ((5, 6), (6, 7), true), ((7, 6), (6, 7), true), ((7, 6), (8, 7), true), ((9, 6), (8, 7), true), ((9, 6), (10, 7), true), ((11, 6), (10, 7), true), ((0, 7), (1, 8), true), ((2, 7), (1, 8), true), ((2, 7), (3, 8), true), ((4, 7), (3, 8), true), ((4, 7), (5, 8), true), ((6, 7), (5, 8), true), ((6, 7), (7, 8), true), ((8, 7), (7, 8), true), ((8, 7), (9, 8), true), ((10, 7), (9, 8), true), ((10, 7), (11, 8), true), ((1, 8), (0, 9), true), ((1, 8), (2, 9), true), ((3, 8), (2, 9), true), ((3, 8), (4, 9), true), ((5, 8), (4, 9), true), ((5, 8), (6, 9), true), ((7, 8), (6, 9), true), ((7, 8), (8, 9), true), ((9, 8), (8, 9), true), ((9, 8), (10, 9), true), ((11, 8), (10, 9), true), ((0, 9), (1, 10), true), ((2, 9), (1, 10), true), ((2, 9), (3, 10), true), ((4, 9), (3, 10), true), ((4, 9), (5, 10), true), ((6, 9), (5, 10), true), ((6, 9), (7, 10), true), ((8, 9), (7, 10), true), ((8, 9), (9, 10), true), ((10, 9), (9, 10), true), ((10, 9), (11, 10), true)] },
    dual := { nodes := [(1, 1), (2, 0), (3, 1), (4, 0), (5, 1), (6, 0), (7, 1), (8, 0), (9, 1), (10, 0), (11, 1), (0, 2), (2, 2), (4, 2), (6, 2), (8, 2), (10, 2), (1, 3), (3, 3), (5, 3), (7, 3), (9, 3), (11, 3), (0, 4), (2, 4), (4, 4), (6, 4), (8, 4), (10, 4), (1, 5), (3, 5), (5, 5), (7, 5), (9, 5), (11, 5), (0, 6), (2, 6), (4, 6), (6, 6), (8, 6), (10, 6), (1, 7), (3, 7), (5, 7), (7, 7), (9, 7), (11, 7), (0, 8), (2, 8), (4, 8), (6, 8), (8, 8), (10, 8), (1, 9), (3, 9), (5, 9), (7, 9), (9, 9), (11, 9), (0, 10), (2, 10), (4, 10), (6, 10), (8, 10), (10, 10)], edges := [((1, 1), (2, 0), true), ((3, 1), (2, 0), true), ((3, 1), (4, 0), true), ((5, 1), (4, 0), true), ((5, 1), (6, 0), true), ((7, 1), (6, 0), true), ((7, 1), (8, 0), true), ((9, 1), (8, 0), true), ((9, 1), (10, 0), true), ((11, 1), (10, 0), true), ((0, 2), (1, 1), false), ((2, 2), (1, 1), true), ((2, 2), (3, 1), true), ((4, 2), (3, 1), true), ((4, 2), (5, 1), true), ((6, 2), (5, 1), true), ((6, 2), (7, 1), true), ((8, 2), (7, 1), true), ((8, 2), (9, 1), true), ((10, 2), (9, 1), true), ((10, 2), (11, 1), true), ((1, 3), (0, 2), true), ((1, 3), (2, 2), true), ((3, 3), (2, 2), true), ((3, 3), (4, 2), true), ((5, 3), (4, 2), true), ((5, 3), (6, 2), true), ((7, 3), (6, 2), true), ((7, 3), (8, 2), true), ((9, 3), (8, 2), true), ((9, 3), (10, 2), true), ((11, 3), (10, 2), true), ((0, 4), (1, 3), true), ((2, 4), (1, 3), true), ((2, 4), (3, 3), true), ((4, 4), (3, 3), true), ((4, 4), (5, 3), true), ((6, 4), (5, 3), true), ((6, 4), (7, 3), true), ((8, 4), (7, 3), true), ((8, 4), (9, 3), true), ((10, 4), (9, 3), true), ((10, 4), (11, 3), true), ((1, 5), (0, 4), true), ((1, 5), (2, 4), true), ((3, 5), (2, 4), true), ((3, 5), (4, 4), true), ((5, 5), (4, 4), true), ((5, 5), (6, 4), true), ((7, 5), (6, 4), true), ((7, 5), (8, 4), true), ((9, 5), (8, 4), true), ((9, 5), (10, 4), true), ((11, 5), (10, 4), true), ((0, 6), (1, 5), true), ((2, 6), (1, 5), true), ((2, 6), (3, 5), true), ((4, 6), (3, 5), true), ((4, 6), (5, 5), true), ((6, 6), (5, 5), true), ((6, 6), (7, 5), true), ((8, 6), (7, 5), true), ((8, 6), (9, 5), true), ((10, 6), (9, 5), true), ((10, 6), (11, 5), true), ((1, 7), (0, 6), true), ((1, 7), (2, 6), true), ((3, 7), (2, 6), true), ((3, 7), (4, 6), true), ((5, 7), (4, 6), true), ((5, 7), (6, 6), true), ((7, 7), (6, 6), true), ((7, 7), (8, 6), true), ((9, 7), (8, 6), true), ((9, 7), (10, 6), true), ((11, 7), (10, 6), true), ((0, 8), (1, 7), true), ((2, 8), (1, 7), true), ((2, 8), (3, 7), true), ((4, 8), (3, 7), true), ((4, 8), (5, 7), true), ((6, 8), (5, 7), true), ((6, 8), (7, 7), true), ((8, 8), (7, 7), true), ((8, 8), (9, 7), true), ((10, 8), (9, 7), true), ((10, 8), (11, 7), true), ((1, 9), (0, 8), true), ((1, 9), (2, 8), true), ((3, 9), (2, 8), true), ((3, 9), (4, 8), true), ((5, 9), (4, 8), true), ((5, 9), (6, 8), true), ((7, 9), (6, 8), true), ((7, 9), (8, 8), true), ((9, 9), (8, 8), true), ((9, 9), (10, 8), true), ((11, 9), (10, 8), true), ((0, 10), (1, 9), true), ((2, 10), (1, 9), true), ((2, 10), (3, 9), true), ((4, 10), (3, 9), true), ((4, 10), (5, 9), true), ((6, 10), (5, 9), true), ((6, 10), (7, 9), true), ((8, 10), (7, 9), true), ((8, 10), (9, 9), true), ((10, 10), (9, 9), true), ((10, 10), (11, 9), true)] },
    unusedQubits := [(0, 1)],
    dualBoundaries := [(1, 1), (0, 2), (2, 0), (4, 0), (6, 0), (8, 0), (10, 0), (11, 1), (11, 3), (0, 4), (11, 5), (0, 6), (11, 7), (0, 8), (11, 9), (0, 10), (2, 10), (4, 10), (6, 10), (8, 10), (10, 10)] }

/-- Computed value of `fromConfig` for the default lattice with qubits 54, 60, 4, 5, 11 and 17 unused, established by `fromConfig_topo519` below. -/
def g519Lit : SearchGraph :=
  { gridWidth := 12,
    gridHeight := 11,
    qubitAtOrigin := false,
    primal := { nodes := [(1, 0), (0, 1), (2, 1), (3, 0), (4, 1), (5, 0), (6, 1), (7, 0), (8, 1), (9, 0), (10, 1), (11, 0), (1, 2), (3, 2), (5, 2), (7, 2), (9, 2), (11, 2), (0, 3), (2, 3), (4, 3), (6, 3), (8, 3), (10, 3), (1, 4), (3, 4), (5, 4), (7, 4), (9, 4), (11, 4), (0, 5), (2, 5), (4, 5), (6, 5), (8, 5), (10, 5), (1, 6), (3, 6), (5, 6), (7, 6), (9, 6), (11, 6), (0, 7), (2, 7), (4, 7), (6, 7), (8, 7), (10, 7), (1, 8), (3, 8), (5, 8), (7, 8), (9, 8), (11, 8), (0, 9), (2, 9), (4, 9), (6, 9), (8, 9), (10, 9), (1, 10), (3, 10), (5, 10), (7, 10), (9, 10), (11, 10)], edges := [((1, 0), (0, 1), true), ((1, 0), (2, 1), true), ((3, 0), (2, 1), true), ((3, 0), (4, 1), true), ((5, 0), (4, 1), true), ((5, 0), (6, 1), true), ((7, 0), (6, 1), true), ((7, 0), (8, 1), true), ((9, 0), (8, 1), false), ((9, 0), (10, 1), false), ((11, 0), (10, 1), false), ((0, 1), (1, 2), true), ((2, 1), (1, 2), true), ((2, 1), (3, 2), true), ((4, 1), (3, 2), true), ((4, 1), (5, 2), true), ((6, 1), (5, 2), true), ((6, 1), (7, 2), true), ((8, 1), (7, 2), true), ((8, 1), (9, 2), true), ((10, 1), (9, 2), false), ((10, 1), (11, 2), false), ((1, 2), (0, 3), true), ((1, 2), (2, 3), true), ((3, 2), (2, 3), true), ((3, 2), (4, 3), true), ((5, 2), (4, 3), true), ((5, 2), (6, 3), true), ((7, 2), (6, 3), true), ((7, 2), (8, 3), true), ((9, 2), (8, 3), true), ((9, 2), (10, 3), true), ((11, 2), (10, 3), false), ((0, 3), (1, 4), true), ((2, 3), (1, 4), true), ((2, 3), (3, 4), true), ((4, 3), (3, 4), true), ((4, 3), (5, 4), true), ((6, 3), (5, 4), true), ((6, 3), (7, 4), true), ((8, 3), (7, 4), true), ((8, 3), (9, 4), true), ((10, 3), (9, 4), true), ((10, 3), (11, 4), true), ((1, 4), (0, 5), true), ((1, 4), (2, 5), true), ((3, 4), (2, 5), true), ((3, 4), (4, 5), true), ((5, 4), (4, 5), true), ((5, 4), (6, 5), true), ((7, 4), (6, 5), true), ((7, 4), (8, 5), true), ((9, 4), (8, 5), true), ((9, 4), (10, 5), true), ((11, 4), (10, 5), true), ((0, 5), (1, 6), true), ((2, 5), (1, 6), true), ((2, 5), (3, 6), true), ((4, 5), (3, 6), true), ((4, 5), (5, 6), true), ((6, 5), (5, 6), true), ((6, 5), (7, 6), true), ((8, 5), (7, 6), true), ((8, 5), (9, 6), true), ((10, 5), (9, 6), true), ((10, 5), (11, 6), true), ((1, 6), (0, 7), true), ((1, 6), (2, 7), true), ((3, 6), (2, 7), true), ((3, 6), (4, 7), true), ((5, 6), (4, 7), true), ((5, 6), (6, 7), true), ((7, 6), (6, 7), true), ((7, 6), (8, 7), true), ((9, 6), (8, 7), true), ((9, 6), (10, 7), true), ((11, 6), (10, 7), true), ((0, 7), (1, 8), true), ((2, 7), (1, 8), true), ((2, 7), (3, 8), true), ((4, 7), (3, 8), true), ((4, 7), (5, 8), true), ((6, 7), (5, 8), true), ((6, 7), (7, 8), true), ((8, 7), (7, 8), true), ((8, 7), (9, 8), true), ((10, 7), (9, 8), true), ((10, 7), (11, 8), true), ((1, 8), (0, 9), false), ((1, 8), (2, 9), true), ((3, 8), (2, 9), true), ((3, 8), (4, 9), true), ((5, 8), (4, 9), true), ((5, 8), (6, 9), true), ((7, 8), (6, 9), true), ((7, 8), (8, 9), true), ((9, 8), (8, 9), true), ((9, 8), (10, 9), true), ((11, 8), (10, 9), true), ((0, 9), (1, 10), false), ((2, 9), (1, 10), false), ((2, 9), (3, 10), true), ((4, 9), (3, 10), true), ((4, 9), (5, 10), true), ((6, 9), (5, 10), true), ((6, 9), (7, 10), true), ((8, 9), (7, 10), true), ((8, 9), (9, 10), true), ((10, 9), (9, 10), true), ((10, 9), (11, 10), true)] },
    dual := { nodes := [(1, 1), (0, 0), (2, 0), (3, 1), (4, 0), (5, 1), (6, 0), (7, 1), (8, 0), (9, 1), (0, 2), (2, 2), (4, 2), (6, 2), (8, 2), (10, 2), (1, 3), (3, 3), (5, 3), (7, 3), (9, 3), (11, 3), (0, 4), (2, 4), (4, 4), (6, 4), (8, 4), (10, 4), (1, 5), (3, 5), (5, 5), (7, 5), (9, 5), (11, 5), (0, 6), (2, 6), (4, 6), (6, 6), (8, 6), (10, 6), (1, 7), (3, 7), (5, 7), (7, 7), (9, 7), (11, 7), (0, 8), (2, 8), (4, 8), (6, 8), (8, 8), (10, 8), (1, 9), (3, 9), (5, 9), (7, 9), (9, 9), (11, 9), (2, 10), (4, 10), (6, 10), (8, 10), (10, 10)], edges := [((1, 1), (0, 0), true), ((1, 1), (2, 0), true), ((3, 1), (2, 0), true), ((3, 1), (4, 0), true), ((5, 1), (4, 0), true), ((5, 1), (6, 0), true), ((7, 1), (6, 0), true), ((7, 1), (8, 0), true), ((9, 1), (8, 0), false), ((0, 2), (1, 1), true), ((2, 2), (1, 1), true), ((2, 2), (3, 1), true), ((4, 2), (3, 1), true), ((4, 2), (5, 1), true), ((6, 2), (5, 1), true), ((6, 2), (7, 1), true), ((8, 2), (7, 1), true), ((8, 2), (9, 1), true), ((10, 2), (9, 1), false), ((1, 3), (0, 2), true), ((1, 3), (2, 2), true), ((3, 3), (2, 2), true), ((3, 3), (4, 2), true), ((5, 3), (4, 2), true), ((5, 3), (6, 2), true), ((7, 3), (6, 2), true), ((7, 3), (8, 2), true), ((9, 3), (8, 2), true), ((9, 3), (10, 2), true), ((11, 3), (10, 2), false), ((0, 4), (1, 3), true), ((2, 4), (1, 3), true), ((2, 4), (3, 3), true), ((4, 4), (3, 3), true), ((4, 4), (5, 3), true), ((6, 4), (5, 3), true), ((6, 4), (7, 3), true), ((8, 4), (7, 3), true), ((8, 4), (9, 3), true), ((10, 4), (9, 3), true), ((10, 4), (11, 3), true), ((1, 5), (0, 4), true), ((1, 5), (2, 4), true), ((3, 5), (2, 4), true), ((3, 5), (4, 4), true), ((5, 5), (4, 4), true), ((5, 5), (6, 4), true), ((7, 5), (6, 4), true), ((7, 5), (8, 4), true), ((9, 5), (8, 4), true), ((9, 5), (10, 4), true), ((11, 5), (10, 4), true), ((0, 6), (1, 5), true), ((2, 6), (1, 5), true), ((2, 6), (3, 5), true), ((4, 6), (3, 5), true), ((4, 6), (5, 5), true), ((6, 6), (5, 5), true), ((6, 6), (7, 5), true), ((8, 6), (7, 5), true), ((8, 6), (9, 5), true), ((10, 6), (9, 5), true), ((10, 6), (11, 5), true), ((1, 7), (0, 6), true), ((1, 7), (2, 6), true), ((3, 7), (2, 6), true), ((3, 7), (4, 6), true), ((5, 7), (4, 6), true), ((5, 7), (6, 6), true), ((7, 7), (6, 6), true), ((7, 7), (8, 6), true), ((9, 7), (8, 6), true), ((9, 7), (10, 6), true), ((11, 7), (10, 6), true), ((0, 8), (1, 7), true), ((2, 8), (1, 7), true), ((2, 8), (3, 7), true), ((4, 8), (3, 7), true), ((4, 8), (5, 7), true), ((6, 8), (5, 7), true), ((6, 8), (7, 7), true), ((8, 8), (7, 7), true), ((8, 8), (9, 7), true), ((10, 8), (9, 7), true), ((10, 8), (11, 7), true), ((1, 9), (0, 8), false), ((1, 9), (2, 8), true), ((3, 9), (2, 8), true), ((3, 9), (4, 8), true), ((5, 9), (4, 8), true), ((5, 9), (6, 8), true), ((7, 9), (6, 8), true), ((7, 9), (8, 8), true), ((9, 9), (8, 8), true), ((9, 9), (10, 8), true), ((11, 9), (10, 8), true), ((2, 10), (1, 9), false), ((2, 10), (3, 9), true), ((4, 10), (3, 9), true), ((4, 10), (5, 9), true), ((6, 10), (5, 9), true), ((6, 10), (7, 9), true), ((8, 10), (7, 9), true), ((8, 10), (9, 9), true), ((10, 10), (9, 9), true), ((10, 10), (11, 9), true)] },
    unusedQubits := [(9, 0), (11, 0), (10, 1), (11, 2), (0, 9), (1, 10)],
    dualBoundaries := [(0, 0), (2, 0), (4, 0), (6, 0), (8, 0), (9, 1), (10, 2), (11, 3), (0, 2), (0, 4), (11, 5), (0, 6), (11, 7), (0, 8), (1, 9), (2, 10), (11, 9), (4, 10), (6, 10), (8, 10), (10, 10)] }

/-- Computed value of `fromConfig` for the default lattice with qubits 33 and 34 unused, established by `fromConfig_topo3334` below. -/
def g3334Lit : SearchGraph :=
  { gridWidth := 12,
    gridHeight := 11,
    qubitAtOrigin := false,
    primal := { nodes := [(1, 0), (0, 1), (2, 1), (3, 0), (4, 1), (5, 0), (6, 1), (7, 0), (8, 1), (9, 0), (10, 1), (11, 0), (1, 2), (3, 2), (5, 2), (7, 2), (9, 2), (11, 2), (0, 3), (2, 3), (4, 3), (6, 3), (8, 3), (10, 3), (1, 4), (3, 4), (5, 4), (7, 4), (9, 4), (11, 4), (0, 5), (2, 5), (4, 5), (6, 5), (8, 5), (10, 5), (1, 6), (3, 6), (5, 6), (7, 6), (9, 6), (11, 6), (0, 7), (2, 7), (4, 7), (6, 7), (8, 7), (10, 7), (1, 8), (3, 8), (5, 8), (7, 8), (9, 8), (11, 8), (0, 9), (2, 9), (4, 9), (6, 9), (8, 9), (10, 9), (1, 10), (3, 10), (5, 10), (7, 10), (9, 10), (11, 10)], edges := [((1, 0), (0, 1), true), ((1, 0), (2, 1), true), ((3, 0), (2, 1), true), ((3, 0), (4, 1), true), ((5, 0), (4, 1), true), ((5, 0), (6, 1), true), ((7, 0), (6, 1), true), ((7, 0), (8, 1), true), ((9, 0), (8, 1), true), ((9, 0), (10, 1), true), ((11, 0), (10, 1), true), ((0, 1), (1, 2), true), ((2, 1), (1, 2), true), ((2, 1), (3, 2), true), ((4, 1), (3, 2), true), ((4, 1), (5, 2), true), ((6, 1), (5, 2), true), ((6, 1), (7, 2), true), ((8, 1), (7, 2), true), ((8, 1), (9, 2), true), ((10, 1), (9, 2), true), ((10, 1), (11, 2), true), ((1, 2), (0, 3), true), ((1, 2), (2, 3), true), ((3, 2), (2, 3), true), ((3, 2), (4, 3), true), ((5, 2), (4, 3), true), ((5, 2), (6, 3), true), ((7, 2), (6, 3), true), ((7, 2), (8, 3), true), ((9, 2), (8, 3), true), ((9, 2), (10, 3), true), ((11, 2), (10, 3), true), ((0, 3), (1, 4), true), ((2, 3), (1, 4), true), ((2, 3), (3, 4), true), ((4, 3), (3, 4), true), ((4, 3), (5, 4), true), ((6, 3), (5, 4), true), ((6, 3), (7, 4), true), ((8, 3), (7, 4), true), ((8, 3), (9, 4), true), ((10, 3), (9, 4), true), ((10, 3), (11, 4), true), ((1, 4), (0, 5), true), ((1, 4), (2, 5), true), ((3, 4), (2, 5), true), ((3, 4), (4, 5), true), ((5, 4), (4, 5), true), ((5, 4), (6, 5), false), ((7, 4), (6, 5), false), ((7, 4), (8, 5), false), ((9, 4), (8, 5), false), ((9, 4), (10, 5), true), ((11, 4), (10, 5), true), ((0, 5), (1, 6), true), ((2, 5), (1, 6), true), ((2, 5), (3, 6), true), ((4, 5), (3, 6), true), ((4, 5), (5, 6), true), ((6, 5), (5, 6), false), ((6, 5), (7, 6), false), ((8, 5), (7, 6), false), ((8, 5), (9, 6), false), ((10, 5), (9, 6), true), ((10, 5), (11, 6), true), ((1, 6), (0, 7), true), ((1, 6), (2, 7), true), ((3, 6), (2, 7), true), ((3, 6), (4, 7), true), ((5, 6), (4, 7), true), ((5, 6), (6, 7), true), ((7, 6), (6, 7), true), ((7, 6), (8, 7), true), ((9, 6), (8, 7), true), ((9, 6), (10, 7), true), ((11, 6), (10, 7), true), ((0, 7), (1, 8), true), ((2, 7), (1, 8), true), ((2, 7), (3, 8), true), ((4, 7), (3, 8), true), ((4, 7), (5, 8), true), ((6, 7), (5, 8), true), ((6, 7), (7, 8), true), ((8, 7), (7, 8), true), ((8, 7), (9, 8), true), ((10, 7), (9, 8), true), ((10, 7), (11, 8), true), ((1, 8), (0, 9), true), ((1, 8), (2, 9), true), ((3, 8), (2, 9), true), ((3, 8), (4, 9), true), ((5, 8), (4, 9), true), ((5, 8), (6, 9), true), ((7, 8), (6, 9), true), ((7, 8), (8, 9), true), ((9, 8), (8, 9), true), ((9, 8), (10, 9), true), ((11, 8), (10, 9), true), ((0, 9), (1, 10), true), ((2, 9), (1, 10), true), ((2, 9), (3, 10), true), ((4, 9), (3, 10), true), ((4, 9), (5, 10), true), ((6, 9), (5, 10), true), ((6, 9), (7, 10), true), ((8, 9), (7, 10), true), ((8, 9), (9, 10), true), ((10, 9), (9, 10), true), ((10, 9), (11, 10), true)] },
    dual := { nodes := [(1, 1), (0, 0), (2, 0), (3, 1), (4, 0), (5, 1), (6, 0), (7, 1), (8, 0), (9, 1), (10, 0), (11, 1), (0, 2), (2, 2), (4, 2), (6, 2), (8, 2), (10, 2), (1, 3), (3, 3), (5, 3), (7, 3), (9, 3), (11, 3), (0, 4), (2, 4), (4, 4), (6, 4), (8, 4), (10, 4), (1, 5), (3, 5), (5, 5), (9, 5), (11, 5), (0, 6), (2, 6), (4, 6), (6, 6), (8, 6), (10, 6), (1, 7), (3, 7), (5, 7), (7, 7), (9, 7), (11, 7), (0, 8), (2, 8), (4, 8), (6, 8), (8, 8), (10, 8), (1, 9), (3, 9), (5, 9), (7, 9), (9, 9), (11, 9), (0, 10), (2, 10), (4, 10), (6, 10), (8, 10), (10, 10)], edges := [((1, 1), (0, 0), true), ((1, 1), (2, 0), true), ((3, 1), (2, 0), true), ((3, 1), (4, 0), true), ((5, 1), (4, 0), true), ((5, 1), (6, 0), true), ((7, 1), (6, 0), true), ((7, 1), (8, 0), true), ((9, 1), (8, 0), true), ((9, 1), (10, 0), true), ((11, 1), (10, 0), true), ((0, 2), (1, 1), true), ((2, 2), (1, 1), true), ((2, 2), (3, 1), true), ((4, 2), (3, 1), true), ((4, 2), (5, 1), true), ((6, 2), (5, 1), true), ((6, 2), (7, 1), true), ((8, 2), (7, 1), true), ((8, 2), (9, 1), true), ((10, 2), (9, 1), true), ((10, 2), (11, 1), true), ((1, 3), (0, 2), true), ((1, 3), (2, 2), true), ((3, 3), (2, 2), true), ((3, 3), (4, 2), true), ((5, 3), (4, 2), true), ((5, 3), (6, 2), true), ((7, 3), (6, 2), true), ((7, 3), (8, 2), true), ((9, 3), (8, 2), true), ((9, 3), (10, 2), true), ((11, 3), (10, 2), true), ((0, 4), (1, 3), true), ((2, 4), (1, 3), true), ((2, 4), (3, 3), true), ((4, 4), (3, 3), true), ((4, 4), (5, 3), true), ((6, 4), (5, 3), true), ((6, 4), (7, 3), true), ((8, 4), (7, 3), true), ((8, 4), (9, 3), true), ((10, 4), (9, 3), true), ((10, 4), (11, 3), true), ((1, 5), (0, 4), true), ((1, 5), (2, 4), true), ((3, 5), (2, 4), true), ((3, 5), (4, 4), true), ((5, 5), (4, 4), true), ((5, 5), (6, 4), false), ((9, 5), (8, 4), false), ((9, 5), (10, 4), true), ((11, 5), (10, 4), true), ((0, 6), (1, 5), true), ((2, 6), (1, 5), true), ((2, 6), (3, 5), true), ((4, 6), (3, 5), true), ((4, 6), (5, 5), true), ((6, 6), (5, 5), false), ((8, 6), (9, 5), false), ((10, 6), (9, 5), true), ((10, 6), (11, 5), true), ((1, 7), (0, 6), true), ((1, 7), (2, 6), true), ((3, 7), (2, 6), true), ((3, 7), (4, 6), true), ((5, 7), (4, 6), true), ((5, 7), (6, 6), true), ((7, 7), (6, 6), true), ((7, 7), (8, 6), true), ((9, 7), (8, 6), true), ((9, 7), (10, 6), true), ((11, 7), (10, 6), true), ((0, 8), (1, 7), true), ((2, 8), (1, 7), true), ((2, 8), (3, 7), true), ((4, 8), (3, 7), true), ((4, 8), (5, 7), true), ((6, 8), (5, 7), true), ((6, 8), (7, 7), true), ((8, 8), (7, 7), true), ((8, 8), (9, 7), true), ((10, 8), (9, 7), true), ((10, 8), (11, 7), true), ((1, 9), (0, 8), true), ((1, 9), (2, 8), true), ((3, 9), (2, 8), true), ((3, 9), (4, 8), true), ((5, 9), (4, 8), true), ((5, 9), (6, 8), true), ((7, 9), (6, 8), true), ((7, 9), (8, 8), true), ((9, 9), (8, 8), true), ((9, 9), (10, 8), true), ((11, 9), (10, 8), true), ((0, 10), (1, 9), true), ((2, 10), (1, 9), true), ((2, 10), (3, 9), true), ((4, 10), (3, 9), true), ((4, 10), (5, 9), true), ((6, 10), (5, 9), true), ((6, 10), (7, 9), true), ((8, 10), (7, 9), true), ((8, 10), (9, 9), true), ((10, 10), (9, 9), true), ((10, 10), (11, 9), true)] },
    unusedQubits := [(6, 5), (8, 5)],
    dualBoundaries := [(0, 0), (2, 0), (4, 0), (6, 0), (8, 0), (10, 0), (11, 1), (0, 2), (11, 3), (0, 4), (11, 5), (0, 6), (11, 7), (0, 8), (11, 9), (0, 10), (2, 10), (4, 10), (6, 10), (8, 10), (10, 10)] }

/-- The four concrete topology scenarios of the spec's test catalogue. -/
def topo6 : TopologyConfig := { defaultTopology with unusedQubits := [6] }

/-- Topology with qubits 54, 60, 4, 5, 11 and 17 unused. -/
def topo519 : TopologyConfig := { defaultTopology with unusedQubits := [54, 60, 4, 5, 11, 17] }

/-- Topology with qubits 33 and 34 unused. -/
def topo3334 : TopologyConfig := { defaultTopology with unusedQubits := [33, 34] }

/-- The 4 by 3 test topology. -/
def topo43 : TopologyConfig := { defaultTopology with gridWidth := 4, gridHeight := 3 }

/-- The 4 by 3 search graph; `fromConfig` succeeds on it, which the
counterexample evaluations below recompute. -/
def g43 : SearchGraph := (fromConfig topo43).getD default

/-- A concrete five-bit pattern for the 4 by 3 lattice (one global bit,
two slash bits, two back-slash bits); only its last bit is set. -/
def pat5 : BitPat := [false, false, false, false, true]

/-- A concrete cut of the 4 by 3 lattice: two real primal edges sharing
the qubit `(1, 0)`. -/
def cut01 : Cutline := { split := [((0, 1), (1, 0)), ((1, 0), (2, 1))], unbalance := 0 }

/-- A concrete total comparator for the driver evaluations; the claims
settled on concrete inputs do not depend on the comparator. -/
def cmp0 : Cost → Cost → Ordering := fun _ _ => Ordering.eq

/-- The uninhibited start/end elision count that the spec describes:
cut edges carrying the start order plus cut edges carrying the end
order, with no used-slot bookkeeping. -/
def uninhibitedStartEnd (ov : List (Option Order)) (cw : CutlineWrapped) (info : OrderInfo) : Nat :=
  (cw.split.filter (fun e => getOrd ov e == info.ordering.headD Order.A)).length +
    (cw.split.filter (fun e => getOrd ov e == info.ordering.getLastD Order.A)).length

/-- A used-slot pair `(beat, edge)` is accountable when its edge lies on
the cut and the beat carries that edge's order: every slot the wedge and
DCD passes claim on cut edges is accountable, and the number of
accountable slots is bounded by the gate count. -/
def ValidSlot (ov : List (Option Order)) (split : List Nat) (ordering : List Order)
    (s : Nat × Nat) : Prop :=
  s.2 ∈ split ∧ ordering.get? s.1 = some (getOrd ov s.2)

instance (ov split ordering) : DecidablePred (ValidSlot ov split ordering) := fun s =>
  inferInstanceAs (Decidable (_ ∧ _))

/-- Number of accountable slots on a board. -/
def slotCount (ov : List (Option Order)) (split : List Nat) (ordering : List Order)
    (b : Board) : Nat :=
  (b.filter (ValidSlot ov split ordering)).card

/-- Specification-side description of a DCD candidate pair, written
from the spec's words as amended: the pair consists of a real cut edge
`n1 n2` and the real primal extension past one of its endpoints along
the same diagonal, while the extension past the opposite endpoint is
virtual or absent. -/
def DcdCandidateSpec (g : SearchGraph) (c : Cutline) (pr : Nat × Nat) : Prop :=
  ∃ n1 n2 : Point, (n1, n2) ∈ c.split ∧ g.primal.edgeWeight n1 n2 = some true ∧
    pr.1 = g.edgeIndex n1 n2 ∧
    ((g.primal.edgeWeight n1 (2 * n1.1 - n2.1, 2 * n1.2 - n2.2) = some true ∧
        (g.primal.edgeWeight n2 (2 * n2.1 - n1.1, 2 * n2.2 - n1.2) = some false ∨
          g.primal.edgeWeight n2 (2 * n2.1 - n1.1, 2 * n2.2 - n1.2) = none) ∧
        pr.2 = g.edgeIndex (2 * n1.1 - n2.1, 2 * n1.2 - n2.2) n1) ∨
      (g.primal.edgeWeight n2 (2 * n2.1 - n1.1, 2 * n2.2 - n1.2) = some true ∧
        (g.primal.edgeWeight n1 (2 * n1.1 - n2.1, 2 * n1.2 - n2.2) = some false ∨
          g.primal.edgeWeight n1 (2 * n1.1 - n2.1, 2 * n1.2 - n2.2) = none) ∧
        pr.2 = g.edgeIndex n2 (2 * n2.1 - n1.1, 2 * n2.2 - n1.2)))

set_option maxHeartbeats 4000000 in
/-- Evaluation of `fromConfig` on the default 12 by 11 lattice. -/
theorem fromConfig_default : fromConfig defaultTopology = some gDefLit := by decide

set_option maxHeartbeats 4000000 in
/-- Evaluation of `fromConfig` with qubit 6 unused. -/
theorem fromConfig_topo6 : fromConfig topo6 = some g6Lit := by decide

set_option maxHeartbeats 4000000 in
/-- Evaluation of `fromConfig` with qubits 54, 60, 4, 5, 11, 17 unused. -/
theorem fromConfig_topo519 : fromConfig topo519 = some g519Lit := by decide

set_option maxHeartbeats 4000000 in
/-- Evaluation of `fromConfig` with qubits 33 and 34 unused. -/
theorem fromConfig_topo3334 : fromConfig topo3334 = some g3334Lit := by decide

/-- Claim C9: for every lattice whose pattern bit width `1 + numSlash +
numBackSlash` is 32 or more, `search_bit_patterns` stops with an error
(modelled `none`) instead of returning an iterator, and for every
lattice below that limit it returns without error. -/
theorem searchBitPatterns_none_iff (g : SearchGraph) :
    searchBitPatterns g = none ↔ 32 ≤ nBits g := by
  by_cases h : 32 ≤ nBits g <;> simp [searchBitPatterns, h]

/-- A character produced by `bitChar` is never an underscore. -/
theorem bitChar_ne_underscore (b : Bool) : bitChar b ≠ '_' := by
  cases b <;> decide

/-- Splitting a separator-free character list yields one fragment. -/
theorem splitUnderscore_no_sep (l : List Char) (h : '_' ∉ l) : splitUnderscore l = [l] := by
  induction l with
  | nil => rfl
  | cons c t ih =>
    have hc : ¬(c = '_') := fun hx => h (hx ▸ List.mem_cons_self c t)
    have ht : '_' ∉ t := fun hx => h (List.mem_cons_of_mem c hx)
    simp only [splitUnderscore, if_neg hc, ih ht]

/-- Splitting after a separator-free prefix peels that prefix off. -/
theorem splitUnderscore_append (a r : List Char) (h : '_' ∉ a) :
    splitUnderscore (a ++ '_' :: r) = a :: splitUnderscore r := by
  induction a with
  | nil => simp [splitUnderscore]
  | cons c t ih =>
    have hc : ¬(c = '_') := fun hx => h (hx ▸ List.mem_cons_self c t)
    have ht : '_' ∉ t := fun hx => h (List.mem_cons_of_mem c hx)
    simp only [List.cons_append, splitUnderscore, if_neg hc, List.append_eq, ih ht]

/-- Mapping the bit-to-character conversion back is the identity. -/
theorem map_bitChar_eq (p : BitPat) : (p.map bitChar).map (fun c => c == '1') = p := by
  rw [List.map_map]
  have : ((fun c => c == '1') ∘ bitChar) = id := by
    funext b
    cases b <;> decide
  rw [this, List.map_id]

/-- Claim C7: the pattern string representation round-trips exactly:
for every BitPattern of any width and a matching `numSlash` (any value
that leaves the representation well formed, i.e. `nSlash + 1` at most
the width), parsing the representation returns the original pattern. -/
theorem pattern_repr_roundtrip (p : BitPat) (ns : Nat) (h : ns + 1 ≤ p.length) :
    (patternRepr p ns).map patternFromRepr = some p := by
  have hraw : (p.map bitChar).length = p.length := List.length_map p bitChar
  have hcond : 1 ≤ (p.map bitChar).length ∧ ns ≤ (p.map bitChar).length - 1 := by
    constructor <;> omega
  have hnotin : '_' ∉ p.map bitChar := by
    intro hx
    rcases List.mem_map.mp hx with ⟨b, _, hb⟩
    exact bitChar_ne_underscore b hb
  have hfirst : '_' ∉ (p.map bitChar).take 1 := fun hx => hnotin (List.take_subset 1 _ hx)
  have hmiddle : '_' ∉ ((p.map bitChar).drop 1).take ns := fun hx =>
    hnotin (List.drop_subset 1 _ (List.take_subset ns _ hx))
  have hflip : '_' ∉ [if bitAt p 0 then '0' else '1'] := by
    cases hb : bitAt p 0 <;> simp
  rw [patternRepr, if_pos hcond]
  simp only [Option.map_some']
  simp only [patternFromRepr]
  have hassoc :
      (p.map bitChar).take 1 ++ ['_'] ++ ((p.map bitChar).drop 1).take ns ++ ['_'] ++
        [if bitAt p 0 then '0' else '1'] ++ ['_'] ++ ((p.map bitChar).drop 1).drop ns =
      (p.map bitChar).take 1 ++ '_' :: (((p.map bitChar).drop 1).take ns ++ '_' ::
        ([if bitAt p 0 then '0' else '1'] ++ '_' :: ((p.map bitChar).drop 1).drop ns)) := by
    simp
  rw [hassoc, splitUnderscore_append _ _ hfirst, splitUnderscore_append _ _ hmiddle,
    splitUnderscore_append _ _ hflip,
    splitUnderscore_no_sep _ (fun hx => hnotin (List.drop_subset 1 _ (List.drop_subset ns _ hx)))]
  simp only [List.getD_cons_zero, List.getD_cons_succ]
  rw [List.append_assoc, List.take_append_drop, List.take_append_drop, map_bitChar_eq]

/-- Witness for claim C7 at a concrete pattern and slash count. -/
theorem pattern_repr_roundtrip_witness :
    1 + 1 ≤ ([true, false, true] : BitPat).length ∧
      (patternRepr [true, false, true] 1).map patternFromRepr = some [true, false, true] :=
  ⟨by decide, pattern_repr_roundtrip [true, false, true] 1 (by decide)⟩

/-- Folding the first-minimum step from a `some` accumulator stays `some`. -/
theorem minByEnum_foldl_some (cmpC : Cost → Cost → Ordering) (l : List (Nat × Cost))
    (y : Nat × Cost) :
    (l.foldl (fun acc x =>
      match acc with
      | none => some x
      | some z => if cmpC x.2 z.2 = Ordering.lt then some x else acc) (some y)).isSome = true := by
  induction l generalizing y with
  | nil => rfl
  | cons a t ih =>
    simp only [List.foldl_cons]
    by_cases hc : cmpC a.2 y.2 = Ordering.lt
    · simp only [hc, if_pos]
      exact ih a
    · simp only [hc, if_neg, ite_false]
      exact ih y

/-- The first-minimum of a non-empty cost list exists. -/
theorem minByEnum_cons_isSome (cmpC : Cost → Cost → Ordering) (x : Nat × Cost)
    (l : List (Nat × Cost)) : (minByEnum cmpC (x :: l)).isSome = true := by
  simpa [minByEnum] using minByEnum_foldl_some cmpC l x

/-- Claim C3, amended: the driver does not raise a structured error on
empty input. With an empty pattern list it returns the empty record
list for every cut list; with a non-empty pattern list and an empty cut
list it stops on the unwrapped empty minimum (modelled `none`); and
with non-empty pattern and cut lists it returns normally. -/
theorem maxMinCost_empty_behavior :
    (∀ (cmpC : Cost → Cost → Ordering) (g : SearchGraph) (cutlines : List Cutline)
        (cfg : AlgorithmConfig), maxMinCost cmpC g [] cutlines cfg = some []) ∧
    (∀ (cmpC : Cost → Cost → Ordering) (g : SearchGraph) (p : BitPat) (ps : List BitPat)
        (cfg : AlgorithmConfig), maxMinCost cmpC g (p :: ps) [] cfg = none) ∧
    (∀ (cmpC : Cost → Cost → Ordering) (g : SearchGraph) (p : BitPat) (ps : List BitPat)
        (c : Cutline) (cs : List Cutline) (cfg : AlgorithmConfig),
        (maxMinCost cmpC g (p :: ps) (c :: cs) cfg).isSome = true) := by
  refine ⟨fun cmpC g cutlines cfg => rfl, fun cmpC g p ps cfg => rfl, ?_⟩
  intro cmpC g p ps c cs cfg
  have hcalc : ∀ q : BitPat,
      (calculateMinCost cmpC g q ((c :: cs).map (fun cl => intoWrapped cl g))
        (orderInfoNew cfg.ordering)).isSome = true := by
    intro q
    simp only [calculateMinCost, List.map_cons, List.enum]
    exact minByEnum_cons_isSome cmpC _ _
  rw [maxMinCost]
  have hmapm : ∀ (l : List BitPat),
      (∀ q ∈ l, (calculateMinCost cmpC g q ((c :: cs).map (fun cl => intoWrapped cl g))
        (orderInfoNew cfg.ordering)).isSome = true) →
      ∃ r, l.mapM (fun q => (calculateMinCost cmpC g q
            ((c :: cs).map (fun cl => intoWrapped cl g)) (orderInfoNew cfg.ordering)).map
          (fun ic => (q, ic))) = some r := by
    intro l
    induction l with
    | nil => intro _; exact ⟨[], rfl⟩
    | cons a t ih =>
      intro hall
      rcases Option.isSome_iff_exists.mp (hall a (List.mem_cons_self a t)) with ⟨v, hv⟩
      rcases ih (fun q hq => hall q (List.mem_cons_of_mem a hq)) with ⟨r, hr⟩
      refine ⟨(a, v) :: r, ?_⟩
      rw [List.mapM_cons, hv, hr]
      rfl
  rcases hmapm (p :: ps) (fun q _ => hcalc q) with ⟨r, hr⟩
  rw [hr]
  rfl

/-- Counterexample for claim C3 at concrete inputs: with an empty
pattern set and a non-empty cut set the driver returns normally with
the empty record list (the claim says it fails with `EmptyInput`), and
with a non-empty pattern set and an empty cut set it stops on an
unwrapped `None` rather than producing an error value. -/
theorem maxMinCost_empty_concrete :
    maxMinCost cmp0 g43 [] [cut01] defaultAlgorithmConfig = some [] ∧
      maxMinCost cmp0 g43 [pat5] [] defaultAlgorithmConfig = none := by
  exact ⟨rfl, rfl⟩

/-- Length of the cyclic take from a non-empty base list. -/
theorem cycleTakeAux_length (a : α) (orig : List α) :
    ∀ (n : Nat) (rest : List α), (cycleTakeAux n rest (a :: orig)).length = n := by
  intro n
  induction n with
  | zero => intro rest; cases rest <;> rfl
  | succ m ih =>
    intro rest
    cases rest with
    | nil => simpa [cycleTakeAux] using ih orig
    | cons b r => simpa [cycleTakeAux] using ih r

/-- Claim C2, amended: the cost evaluator reads its beat sequence from
`algorithm_config.ordering` alone, so its result is independent of
`circuit_depth`; `full_ordering` computes the base ordering repeated
cyclically to length `circuit_depth` (empty for an empty base), but the
evaluator does not consume it. -/
theorem evaluator_ordering_facts :
    (∀ (cmpC : Cost → Cost → Ordering) (g : SearchGraph) (patterns : List BitPat)
        (cutlines : List Cutline) (cfg : AlgorithmConfig) (d : Nat),
        maxMinCost cmpC g patterns cutlines { cfg with circuitDepth := d } =
          maxMinCost cmpC g patterns cutlines cfg) ∧
    (∀ cfg : AlgorithmConfig,
        (fullOrdering cfg).length = if cfg.ordering.isEmpty then 0 else cfg.circuitDepth) := by
  constructor
  · intro cmpC g patterns cutlines cfg d
    rfl
  · intro cfg
    rcases cfg with ⟨n, _, _, _, ordering⟩
    cases ordering with
    | nil =>
      simp only [fullOrdering, List.isEmpty_nil, if_pos]
      cases n <;> rfl
    | cons a t =>
      simpa [fullOrdering] using cycleTakeAux_length a t n (a :: t)

/-- Counterexample for claim C2 at concrete inputs: under the default
configuration (`circuit_depth = 20`, base ordering `ABCDCDAB` of length
8) the driver's record for a one-pattern, one-cut run has gate count 4,
namely 2 beats per order over the 8-beat base ordering for each of the
two cut edges, whereas the beat sequence of length `circuit_depth` that
the claim describes (the base repeated to 20 beats, 5 beats per order)
yields gate count 10; so the sequence whose per-order counts the
evaluator uses is the base ordering, not the repetition of length
`circuitDepth`. -/
theorem evaluator_uses_base_ordering_concrete :
    (maxMinCost cmp0 g43 [pat5] [cut01] defaultAlgorithmConfig).map
        (fun rs => rs.map (fun r => r.cost.gates)) = some [4] ∧
      (fullOrdering defaultAlgorithmConfig).length = 20 ∧
      defaultAlgorithmConfig.ordering.length = 8 ∧
      (costForCutline (orderVec pat5 g43) (intoWrapped cut01 g43)
          (orderInfoNew (fullOrdering defaultAlgorithmConfig))).gates = 10 := by
  refine ⟨by decide, by decide, by decide, by decide⟩

/-- One start/end elision step adds at most the edge's two match
indicators to the counter. -/
theorem seOne_le (ov : List (Option Order)) (s e : Order) (d a : Nat) (st : Board × Nat) :
    (seOne ov s e d a st).2 ≤
      st.2 + (if getOrd ov a == s then 1 else 0) + (if getOrd ov a == e then 1 else 0) := by
  rw [seOne]
  split_ifs with h1 h2 h2 <;>
    simp_all [beq_iff_eq] <;> omega

/-- The start/end elision pass counts at most the uninhibited number of
matching cut edges, whatever board it starts from. -/
theorem sePass_le (ov : List (Option Order)) (s e : Order) (d : Nat) :
    ∀ (split : List Nat) (st : Board × Nat),
      (sePass ov split s e d st).2 ≤
        st.2 + (split.filter (fun x => getOrd ov x == s)).length +
          (split.filter (fun x => getOrd ov x == e)).length := by
  intro split
  induction split with
  | nil => intro st; simp [sePass]
  | cons a t ih =>
    intro st
    have hstep := seOne_le ov s e d a st
    have := ih (seOne ov s e d a st)
    simp only [sePass, List.foldl_cons] at this ⊢
    simp only [List.filter_cons]
    split_ifs with h1 h2 <;> simp_all <;> omega

/-- Claim C1, amended: the cost evaluation applies the wedge pass first,
the DCD pass second and the start/end elision pass last, all on one
shared used-slot board that starts empty, so the start/end count is
inhibited by the fusion passes' claims at the end beats: it never
exceeds the uninhibited count of matching cut edges and can fall
strictly below it. -/
theorem costForCutline_pass_order (ov : List (Option Order)) (cw : CutlineWrapped)
    (info : OrderInfo) :
    ((costForCutline ov cw info).wedge =
        (wedgePass ov info.potWedges cw.wedgeCandidates (∅, 0)).2 ∧
      (costForCutline ov cw info).dcd =
        (dcdPass ov cw.split info.potDcds cw.dcdCandidates
          ((wedgePass ov info.potWedges cw.wedgeCandidates (∅, 0)).1, 0)).2 ∧
      (costForCutline ov cw info).startEnd =
        (sePass ov cw.split (info.ordering.headD Order.A) (info.ordering.getLastD Order.A)
          (info.ordering.length - 1)
          ((dcdPass ov cw.split info.potDcds cw.dcdCandidates
            ((wedgePass ov info.potWedges cw.wedgeCandidates (∅, 0)).1, 0)).1, 0)).2) ∧
      (costForCutline ov cw info).startEnd ≤ uninhibitedStartEnd ov cw info := by
  refine ⟨⟨rfl, rfl, rfl⟩, ?_⟩
  have := sePass_le ov (info.ordering.headD Order.A) (info.ordering.getLastD Order.A)
    (info.ordering.length - 1) cw.split
    ((dcdPass ov cw.split info.potDcds cw.dcdCandidates
      ((wedgePass ov info.potWedges cw.wedgeCandidates (∅, 0)).1, 0)).1, 0)
  simpa [costForCutline, uninhibitedStartEnd] using this

/-- Counterexample for claim C1 at concrete inputs: with the beat
sequence `A C B`, the pattern assigning orders `A` and `C` to the two
cut edges and the concrete cut of the 4 by 3 lattice, the source's
evaluation claims the wedge at beats 0 and 1 first and then finds the
beat-0 slot of the `A` edge used, yielding a start/end count of 0 even
though one cut edge matches the start order (the spec's pass order
start/end, wedge, DCD yields start/end count 1 and no wedge). -/
theorem startEnd_inhibited_concrete :
    costForCutline (orderVec pat5 g43) (intoWrapped cut01 g43)
        (orderInfoNew [Order.A, Order.C, Order.B]) =
      { gates := 2, startEnd := 0, wedge := 1, dcd := 0, unbalance := 0 } ∧
      costForCutlineSpecOrder (orderVec pat5 g43) (intoWrapped cut01 g43)
          (orderInfoNew [Order.A, Order.C, Order.B]) =
        { gates := 2, startEnd := 1, wedge := 0, dcd := 0, unbalance := 0 } ∧
      uninhibitedStartEnd (orderVec pat5 g43) (intoWrapped cut01 g43)
          (orderInfoNew [Order.A, Order.C, Order.B]) = 1 := by
  refine ⟨by decide, by decide, by decide⟩

/-- Claim C5, amended: every DCD candidate precomputed by
`into_wrapped` consists of a real cut edge and the real primal edge
extending past one of its endpoints along the same diagonal, the
extension past the opposite endpoint being virtual or absent; both
members of the pair are real (not exactly one). -/
theorem dcd_candidates_spec (g : SearchGraph) (c : Cutline) (pr : Nat × Nat)
    (h : pr ∈ (intoWrapped c g).dcdCandidates) : DcdCandidateSpec g c pr := by
  simp only [intoWrapped] at h
  rcases List.mem_filterMap.mp h with ⟨e, he, hf⟩
  rcases List.mem_filter.mp he with ⟨hsplit, hreal⟩
  have hrealw : g.primal.edgeWeight e.1 e.2 = some true := by
    rcases hw : g.primal.edgeWeight e.1 e.2 with _ | b
    · rw [hw] at hreal; cases hreal
    · rw [hw] at hreal; cases b
      · cases hreal
      · rfl
  refine ⟨e.1, e.2, hsplit, hrealw, ?_⟩
  rcases h1 : g.primal.edgeWeight e.1 (2 * e.1.1 - e.2.1, 2 * e.1.2 - e.2.2) with _ | b1 <;>
    rcases h2 : g.primal.edgeWeight e.2 (2 * e.2.1 - e.1.1, 2 * e.2.2 - e.1.2) with _ | b2 <;>
    rw [h1, h2] at hf
  · cases hf
  · cases b2
    · cases hf
    · have hp := Option.some.inj hf
      subst hp
      exact ⟨rfl, by simp⟩
  · cases b1
    · cases hf
    · have hp := Option.some.inj hf
      subst hp
      exact ⟨rfl, by simp⟩
  · cases b1 <;> cases b2
    · cases hf
    · have hp := Option.some.inj hf
      subst hp
      exact ⟨rfl, by simp⟩
    · have hp := Option.some.inj hf
      subst hp
      exact ⟨rfl, by simp⟩
    · cases hf

/-- Witness for amended claim C5 at a concrete candidate. -/
theorem dcd_candidates_spec_witness :
    (1, 5) ∈ (intoWrapped cut01 g43).dcdCandidates ∧ DcdCandidateSpec g43 cut01 (1, 5) :=
  ⟨by decide, dcd_candidates_spec g43 cut01 (1, 5) (by decide)⟩

/-- Counterexample for claim C5 at concrete inputs: the single DCD
candidate of the concrete cut pairs cut edge 1 (qubits `(1,0)` and
`(2,1)`) with outside edge 5 (qubits `(2,1)` and `(3,2)`), and both
edges are real, contradicting the claim that exactly one of the pair is
real. -/
theorem dcd_candidate_both_real_concrete :
    (intoWrapped cut01 g43).dcdCandidates = [(1, 5)] ∧
      g43.edgeIndex (1, 0) (2, 1) = 1 ∧ g43.edgeIndex (2, 1) (3, 2) = 5 ∧
      g43.primal.edgeWeight (1, 0) (2, 1) = some true ∧
      g43.primal.edgeWeight (2, 1) (3, 2) = some true := by
  refine ⟨by decide, by decide, by decide, by decide, by decide⟩

/-- Appending one node to a path adds at most one to its real depth. -/
theorem computeDepth_append_le (g : Graph) :
    ∀ (v : List Point) (c : Point), computeDepth g (v ++ [c]) ≤ computeDepth g v + 1
  | [], c => by simp [computeDepth]
  | [a], c => by
    simp only [List.cons_append, List.nil_append, computeDepth]
    split <;> omega
  | a :: b :: t, c => by
    have ih := computeDepth_append_le g (b :: t) c
    simp only [List.cons_append, List.append_eq, computeDepth] at ih ⊢
    omega

/-- Appending one node never decreases the real depth of a path. -/
theorem computeDepth_le_append (g : Graph) :
    ∀ (v : List Point) (c : Point), computeDepth g v ≤ computeDepth g (v ++ [c])
  | [], c => by simp [computeDepth]
  | [a], c => by simp [computeDepth]
  | a :: b :: t, c => by
    have ih := computeDepth_le_append g (b :: t) c
    simp only [List.cons_append, List.append_eq, computeDepth] at ih ⊢
    omega

/-- Dropping the last node never increases the real depth of a path. -/
theorem computeDepth_dropLast_le (g : Graph) (v : List Point) :
    computeDepth g v.dropLast ≤ computeDepth g v := by
  by_cases hv : v = []
  · subst hv; simp
  · conv_rhs => rw [← List.dropLast_append_getLast hv]
    exact computeDepth_le_append g v.dropLast (v.getLast hv)

/-- Invariant of the iterative DFS: if the current path keeps
`depth + 1` within the bound, every yielded path has real depth between
`minL - 1` and `maxL`. -/
theorem searchLoop_depth_le (g : Graph) (boundaries tos : List Point) (minL maxL : Nat)
    (hmax : 1 ≤ maxL) (hminmax : minL ≤ maxL) :
    ∀ (fuel : Nat) (visited : List Point) (stack : List (List Point)),
      computeDepth g visited + 1 ≤ maxL →
      ∀ p ∈ searchLoop g boundaries tos minL maxL fuel visited stack,
        minL - 1 ≤ computeDepth g p ∧ computeDepth g p ≤ maxL := by
  intro fuel
  induction fuel with
  | zero =>
    intro visited stack hvis p hp
    simp [searchLoop] at hp
  | succ n ih =>
    intro visited stack hvis p hp
    match stack with
    | [] => simp [searchLoop] at hp
    | children :: restStack =>
      cases children with
      | nil =>
        rw [searchLoop] at hp
        refine ih visited.dropLast restStack ?_ p hp
        have := computeDepth_dropLast_le g visited
        omega
      | cons child cs =>
        rw [searchLoop] at hp
        by_cases hlt : computeDepth g visited + 1 < maxL
        · rw [if_pos hlt] at hp
          by_cases htos : tos.contains child = true
          · rw [if_pos htos] at hp
            rcases List.mem_append.mp hp with hleft | hright
            · by_cases hmin : minL ≤ computeDepth g visited + 1
              · rw [if_pos hmin] at hleft
                rcases List.mem_singleton.mp hleft with rfl
                have h1 := computeDepth_append_le g visited child
                have h2 := computeDepth_le_append g visited child
                constructor <;> omega
              · rw [if_neg hmin] at hleft
                cases hleft
            · exact ih visited (cs :: restStack) hvis p hright
          · rw [if_neg htos] at hp
            by_cases hbc : (!boundaries.contains child && !visited.contains child) = true
            · rw [if_pos hbc] at hp
              refine ih (visited ++ [child]) (g.neighbors child :: cs :: restStack) ?_ p hp
              have := computeDepth_append_le g visited child
              omega
            · rw [if_neg hbc] at hp
              exact ih visited (cs :: restStack) hvis p hp
        · rw [if_neg hlt] at hp
          rcases hfind : findSplit (fun c => tos.contains c) (child :: cs) with _ | ⟨c, rest⟩
          · rw [hfind] at hp
            refine ih visited.dropLast restStack ?_ p hp
            have := computeDepth_dropLast_le g visited
            omega
          · rw [hfind] at hp
            rcases List.mem_cons.mp hp with rfl | hrest
            · have h1 := computeDepth_append_le g visited c
              have h2 := computeDepth_le_append g visited c
              constructor <;> omega
            · exact ih visited (rest :: restStack) hvis p hrest

/-- Claim C4, amended: for `minDepth ≤ maxDepth` and `maxDepth ≥ 1`,
every path yielded by the depth-bounded dual path search has a real-edge
depth `d` with `minDepth - 1 ≤ d ≤ maxDepth`. The code tests
`depth + 1` against the bounds before the final hop's own weight is
known, so a virtual final edge can yield `minDepth - 1`, and the
terminal branch taken when `depth + 1` reaches `maxDepth` can yield
`maxDepth` itself; the half-open interval `[minDepth, maxDepth)` of the
original claim does not hold. -/
theorem searchPathsBetween_depth_le (sg : SearchGraph) (src : Point) (tos : List Point)
    (minL maxL fuel : Nat) (hmax : 1 ≤ maxL) (hminmax : minL ≤ maxL) :
    ∀ p ∈ searchPathsBetween sg src tos minL maxL fuel,
      minL - 1 ≤ computeDepth sg.dual p ∧ computeDepth sg.dual p ≤ maxL := by
  intro p hp
  refine searchLoop_depth_le sg.dual sg.dualBoundaries tos minL maxL hmax hminmax fuel
    [src] [sg.dual.neighbors src] ?_ p hp
  have : computeDepth sg.dual [src] = 0 := rfl
  omega

/-- Witness for amended claim C4 on one concrete yielded path of a run
with `minDepth = 1`, `maxDepth = 2` over the 4 by 3 dual graph. -/
theorem searchPathsBetween_depth_le_witness :
    1 ≤ 2 ∧ 1 ≤ 2 ∧
      [((0 : Int), (0 : Int)), (1, 1), (2, 0)] ∈
        searchPathsBetween g43 (0, 0) [(2, 0), (3, 1), (0, 2), (2, 2)] 1 2 50 ∧
      (1 - 1 ≤ computeDepth g43.dual [((0 : Int), (0 : Int)), (1, 1), (2, 0)] ∧
        computeDepth g43.dual [((0 : Int), (0 : Int)), (1, 1), (2, 0)] ≤ 2) :=
  ⟨by decide, by decide, by decide,
    searchPathsBetween_depth_le g43 (0, 0) [(2, 0), (3, 1), (0, 2), (2, 2)] 1 2 50
      (by decide) (by decide) [((0 : Int), (0 : Int)), (1, 1), (2, 0)] (by decide)⟩

/-- Counterexample for claim C4 at concrete inputs: searching the dual
of the 4 by 3 lattice from boundary node `(0, 0)` toward the remaining
boundary nodes with `minDepth = 1` and `maxDepth = 2` yields a path
whose real-edge depth is 2, outside the claimed interval `[1, 2)`. -/
theorem searchPaths_depth_outside_interval_concrete :
    ∃ p ∈ searchPathsBetween g43 (0, 0) [(2, 0), (3, 1), (0, 2), (2, 2)] 1 2 50,
      ¬(1 ≤ computeDepth g43.dual p ∧ computeDepth g43.dual p < 2) := by
  decide

/-- The number of beats carrying an order is the order's count. -/
theorem count_eq_card_filter_range (l : List Order) (o : Order) :
    ((Finset.range l.length).filter (fun i => l.get? i = some o)).card = l.count o := by
  induction l using List.reverseRecOn with
  | nil => simp
  | append_singleton t a ih =>
    have hfil : Finset.filter (fun i => (t ++ [a]).get? i = some o) (Finset.range t.length) =
        Finset.filter (fun i => t.get? i = some o) (Finset.range t.length) :=
      Finset.filter_congr (fun i hi => by
        rw [Finset.mem_range] at hi
        rw [List.get?_append hi])
    rw [List.length_append, List.length_singleton, Finset.range_succ, Finset.filter_insert]
    by_cases ha : a = o
    · rw [if_pos (by rw [List.get?_concat_length, ha])]
      rw [Finset.card_insert_of_not_mem (by simp), hfil, ih]
      simp [List.count_append, List.count_singleton, ha]
    · rw [if_neg (by rw [List.get?_concat_length]; simp [ha])]
      rw [hfil, ih]
      have : o ≠ a := fun hx => ha hx.symm
      simp [List.count_append, List.count_singleton, ha, this]

/-- Accountable-slot counting is monotone in the board. -/
theorem slotCount_mono (ov : List (Option Order)) (split : List Nat) (ordering : List Order)
    {b b2 : Board} (h : b ⊆ b2) :
    slotCount ov split ordering b ≤ slotCount ov split ordering b2 :=
  Finset.card_le_card (Finset.filter_subset_filter _ h)

/-- Inserting a fresh accountable slot raises the count by one. -/
theorem slotCount_insert_new (ov : List (Option Order)) (split : List Nat) (ordering : List Order)
    {b : Board} {x : Nat × Nat} (hx : ValidSlot ov split ordering x) (hnb : x ∉ b) :
    slotCount ov split ordering b + 1 ≤ slotCount ov split ordering (insert x b) := by
  simp only [slotCount]
  rw [Finset.filter_insert, if_pos hx]
  rw [Finset.card_insert_of_not_mem (fun hmem => hnb (Finset.mem_of_mem_filter x hmem))]

/-- Folding a step that never loses more counter than accountable slots
gained keeps the global inequality. -/
theorem foldl_slot_bound {α : Type} (A : Board → Nat) (f : Board × Nat → α → Board × Nat)
    (l : List α) :
    (∀ s x, x ∈ l → (f s x).2 + A s.1 ≤ s.2 + A (f s x).1) →
    ∀ s : Board × Nat, (l.foldl f s).2 + A s.1 ≤ s.2 + A (l.foldl f s).1 := by
  induction l with
  | nil => intro _ s; simp
  | cons a t ih =>
    intro hstep s
    have h1 := hstep s a (List.mem_cons_self a t)
    have h2 := ih (fun s x hx => hstep s x (List.mem_cons_of_mem a hx)) (f s a)
    simp only [List.foldl_cons]
    omega

/-- Every interesting wedge window carries the beats at its position. -/
theorem potentialWedges_get (ordering : List Order) :
    ∀ w ∈ potentialWedges ordering,
      ordering.get? w.1 = some w.2.1 ∧ ordering.get? (w.1 + 1) = some w.2.2 := by
  intro w hw
  rcases List.mem_filterMap.mp hw with ⟨iw, hiw, hf⟩
  by_cases he : elementaryPair iw.2.1 iw.2.2 = true
  · rw [if_pos he] at hf; cases hf
  · rw [if_neg he] at hf
    have hww := Option.some.inj hf
    subst hww
    have hzip : (windows2 ordering)[iw.1]? = some iw.2 :=
      List.mk_mem_enum_iff_getElem?.mp hiw
    rcases List.getElem?_zip_eq_some.mp hzip with ⟨h1, h2⟩
    rw [List.getElem?_drop] at h2
    constructor
    · rw [List.get?_eq_getElem?]; exact h1
    · rw [List.get?_eq_getElem?, Nat.add_comm]; exact h2

/-- Every interesting DCD window carries the beats at its position, the
first and third beat being equal. -/
theorem potentialDcds_get (ordering : List Order) :
    ∀ w ∈ potentialDcds ordering,
      ordering.get? w.1 = some w.2.1 ∧ ordering.get? (w.1 + 1) = some w.2.2 ∧
        ordering.get? (w.1 + 2) = some w.2.1 := by
  intro w hw
  rcases List.mem_filterMap.mp hw with ⟨iw, hiw, hf⟩
  by_cases hne : iw.2.1 ≠ iw.2.2.2
  · rw [if_pos hne] at hf; cases hf
  · rw [if_neg hne] at hf
    push_neg at hne
    by_cases he : elementaryPair iw.2.1 iw.2.2.1 = true
    · rw [if_pos he] at hf
      have hww := Option.some.inj hf
      subst hww
      have hzip : (windows3 ordering)[iw.1]? = some iw.2 :=
        List.mk_mem_enum_iff_getElem?.mp hiw
      rcases List.getElem?_zip_eq_some.mp hzip with ⟨h1, h23⟩
      rcases List.getElem?_zip_eq_some.mp h23 with ⟨h2, h3⟩
      rw [List.getElem?_drop] at h2 h3
      refine ⟨?_, ?_, ?_⟩
      · rw [List.get?_eq_getElem?]; exact h1
      · rw [List.get?_eq_getElem?, Nat.add_comm]; exact h2
      · rw [List.get?_eq_getElem?, Nat.add_comm, hne]; exact h3
    · rw [if_neg he] at hf; cases hf

/-- Both members of a position pair lie in the underlying list. -/
theorem pairsOf_mem : ∀ (l : List α) (pr : α × α), pr ∈ pairsOf l → pr.1 ∈ l ∧ pr.2 ∈ l := by
  intro l
  induction l with
  | nil => intro pr h; cases h
  | cons a t ih =>
    intro pr h
    rcases List.mem_append.mp h with hl | hr
    · rcases List.mem_map.mp hl with ⟨b, hb, hprb⟩
      subst hprb
      exact ⟨List.mem_cons_self a t, List.mem_cons_of_mem a hb⟩
    · rcases ih pr hr with ⟨h1, h2⟩
      exact ⟨List.mem_cons_of_mem a h1, List.mem_cons_of_mem a h2⟩

/-- Both indices of a wedge candidate are indices of cut edges. -/
theorem intoWrapped_wedge_mem (g : SearchGraph) (c : Cutline) :
    ∀ pr ∈ (intoWrapped c g).wedgeCandidates,
      pr.1 ∈ (intoWrapped c g).split ∧ pr.2 ∈ (intoWrapped c g).split := by
  intro pr hpr
  simp only [intoWrapped] at hpr ⊢
  rcases List.mem_filterMap.mp hpr with ⟨e, he, hf⟩
  by_cases hcond : (e.1.1 == e.2.1 || e.1.1 == e.2.2 || e.1.2 == e.2.1 || e.1.2 == e.2.2) = true
  · rw [if_pos hcond] at hf
    have hpr2 := Option.some.inj hf
    subst hpr2
    rcases pairsOf_mem _ e he with ⟨h1, h2⟩
    exact ⟨List.mem_map_of_mem _ h1, List.mem_map_of_mem _ h2⟩
  · rw [if_neg hcond] at hf; cases hf

/-- The cut-edge index of a DCD candidate is an index of a cut edge. -/
theorem intoWrapped_dcd_mem (g : SearchGraph) (c : Cutline) :
    ∀ pr ∈ (intoWrapped c g).dcdCandidates, pr.1 ∈ (intoWrapped c g).split := by
  intro pr hpr
  simp only [intoWrapped] at hpr ⊢
  rcases List.mem_filterMap.mp hpr with ⟨e, he, hf⟩
  rcases h1 : g.primal.edgeWeight e.1 (2 * e.1.1 - e.2.1, 2 * e.1.2 - e.2.2) with _ | b1 <;>
    rcases h2 : g.primal.edgeWeight e.2 (2 * e.2.1 - e.1.1, 2 * e.2.2 - e.1.2) with _ | b2 <;>
    rw [h1, h2] at hf
  · cases hf
  · cases b2
    · cases hf
    · have hp := Option.some.inj hf
      subst hp
      exact List.mem_map_of_mem _ he
  · cases b1
    · cases hf
    · have hp := Option.some.inj hf
      subst hp
      exact List.mem_map_of_mem _ he
  · cases b1 <;> cases b2
    · cases hf
    · have hp := Option.some.inj hf
      subst hp
      exact List.mem_map_of_mem _ he
    · have hp := Option.some.inj hf
      subst hp
      exact List.mem_map_of_mem _ he
    · cases hf

/-- The accountable slots of any board are at most the gate count. -/
theorem slotCount_le_sum (ov : List (Option Order)) (ordering : List Order) :
    ∀ (split : List Nat) (b : Board),
      slotCount ov split ordering b ≤ (split.map (fun e => ordering.count (getOrd ov e))).sum := by
  intro split
  induction split with
  | nil =>
    intro b
    have hempty : Finset.filter (ValidSlot ov [] ordering) b = ∅ := by
      refine Finset.filter_false_of_mem ?_
      intro x _ hx
      rcases hx with ⟨hmem, _⟩
      cases hmem
    simp [slotCount, hempty]
  | cons a t ih =>
    intro b
    have hsub : Finset.filter (ValidSlot ov (a :: t) ordering) b ⊆
        Finset.filter (fun s => s.2 = a ∧ ordering.get? s.1 = some (getOrd ov a)) b ∪
          Finset.filter (ValidSlot ov t ordering) b := by
      intro s hs
      rcases Finset.mem_filter.mp hs with ⟨hsb, hmem, hget⟩
      rcases List.mem_cons.mp hmem with h | h
      · refine Finset.mem_union_left _ (Finset.mem_filter.mpr ⟨hsb, h, ?_⟩)
        rw [← h]
        exact hget
      · exact Finset.mem_union_right _ (Finset.mem_filter.mpr ⟨hsb, h, hget⟩)
    have hcard := Finset.card_le_card hsub
    have hcard2 := Finset.card_union_le
      (Finset.filter (fun s => s.2 = a ∧ ordering.get? s.1 = some (getOrd ov a)) b)
      (Finset.filter (ValidSlot ov t ordering) b)
    have hfiber : (Finset.filter (fun s => s.2 = a ∧ ordering.get? s.1 = some (getOrd ov a)) b).card
        ≤ ordering.count (getOrd ov a) := by
      rw [← count_eq_card_filter_range ordering (getOrd ov a)]
      refine Finset.card_le_card_of_injOn (fun s => s.1) ?_ ?_
      · intro s hs
        rcases Finset.mem_filter.mp hs with ⟨_, _, hget⟩
        refine Finset.mem_filter.mpr ⟨?_, hget⟩
        rcases List.get?_eq_some.mp hget with ⟨hlt, _⟩
        exact Finset.mem_range.mpr hlt
      · intro s1 h1 s2 h2 heq
        rcases Finset.mem_filter.mp h1 with ⟨_, h1a, _⟩
        rcases Finset.mem_filter.mp h2 with ⟨_, h2a, _⟩
        exact Prod.ext heq (h1a.trans h2a.symm)
    have hih := ih b
    simp only [List.map_cons, List.sum_cons]
    simp only [slotCount] at hih ⊢
    omega

/-- One wedge claim attempt keeps the counter within the accountable
slots, provided the first claimed slot is accountable. -/
theorem wedgeTry_bound (ov : List (Option Order)) (split : List Nat) (ordering : List Order)
    (i a b : Nat) (st : Board × Nat) (hva : ValidSlot ov split ordering (i, a)) :
    (wedgeTry i a b st).2 + slotCount ov split ordering st.1 ≤
      st.2 + slotCount ov split ordering (wedgeTry i a b st).1 := by
  rw [wedgeTry]
  split_ifs with hc
  · have hnb : (i, a) ∉ insert (i + 1, b) st.1 := by
      intro hmem
      rcases Finset.mem_insert.mp hmem with heq | hin
      · have : i = i + 1 := congrArg Prod.fst heq
        omega
      · exact hc.1 hin
    have hnew := slotCount_insert_new ov split ordering hva hnb
    have hm := slotCount_mono ov split ordering (Finset.subset_insert ((i + 1, b)) st.1)
    simp only at hnew hm ⊢
    omega
  · simp

/-- One wedge candidate at one window keeps the counter within the
accountable slots. -/
theorem wedgeOne_bound (ov : List (Option Order)) (split : List Nat) (ordering : List Order)
    (i : Nat) (o1 o2 : Order) (e1 e2 : Nat) (st : Board × Nat)
    (h1 : ordering.get? i = some o1) (h2 : ordering.get? (i + 1) = some o2)
    (he1 : e1 ∈ split) (he2 : e2 ∈ split) :
    (wedgeOne ov i o1 o2 e1 e2 st).2 + slotCount ov split ordering st.1 ≤
      st.2 + slotCount ov split ordering (wedgeOne ov i o1 o2 e1 e2 st).1 := by
  rw [wedgeOne]
  split_ifs with ha hb
  · refine wedgeTry_bound ov split ordering i e1 e2 st ⟨he1, ?_⟩
    rw [ha.1]
    exact h1
  · refine wedgeTry_bound ov split ordering i e2 e1 st ⟨he2, ?_⟩
    rw [hb.1]
    exact h1
  · simp

/-- The wedge pass counts at most the accountable slots it claims. -/
theorem wedgePass_bound (ov : List (Option Order)) (split : List Nat) (ordering : List Order)
    (pw : List (Nat × Order × Order)) (wc : List (Nat × Nat))
    (hpw : ∀ w ∈ pw, ordering.get? w.1 = some w.2.1 ∧ ordering.get? (w.1 + 1) = some w.2.2)
    (hwc : ∀ pr ∈ wc, pr.1 ∈ split ∧ pr.2 ∈ split) (st : Board × Nat) :
    (wedgePass ov pw wc st).2 + slotCount ov split ordering st.1 ≤
      st.2 + slotCount ov split ordering (wedgePass ov pw wc st).1 := by
  rw [wedgePass]
  refine foldl_slot_bound (slotCount ov split ordering) _ pw ?_ st
  intro s w hw
  refine foldl_slot_bound (slotCount ov split ordering) _ wc ?_ s
  intro s2 pr hpr
  exact wedgeOne_bound ov split ordering w.1 w.2.1 w.2.2 pr.1 pr.2 s2
    (hpw w hw).1 (hpw w hw).2 (hwc pr hpr).1 (hwc pr hpr).2

/-- One DCD candidate at one window keeps the counter within the
accountable slots. -/
theorem dcdOne_bound (ov : List (Option Order)) (split : List Nat) (ordering : List Order)
    (i : Nat) (o1 o2 : Order) (e1 e2 : Nat) (st : Board × Nat)
    (h1 : ordering.get? i = some o1) (h2 : ordering.get? (i + 1) = some o2)
    (h3 : ordering.get? (i + 2) = some o1) (he1 : e1 ∈ split) :
    (dcdOne ov split i o1 o2 e1 e2 st).2 + slotCount ov split ordering st.1 ≤
      st.2 + slotCount ov split ordering (dcdOne ov split i o1 o2 e1 e2 st).1 := by
  rw [dcdOne]
  split_ifs with hc hin <;>
    first
    | exact le_rfl
    | · have hv1 : ValidSlot ov split ordering (i, e1) := ⟨he1, by rw [hc.1]; exact h1⟩
        have hv2 : ValidSlot ov split ordering (i + 2, e1) := ⟨he1, by rw [hc.1]; exact h3⟩
        have hn1 : (i, e1) ∉ insert (i + 2, e1) (insert (i + 1, e2) st.1) := by
          intro hmem
          rcases Finset.mem_insert.mp hmem with heq | hmem2
          · have : i = i + 2 := congrArg Prod.fst heq
            omega
          · rcases Finset.mem_insert.mp hmem2 with heq | hin2
            · have : i = i + 1 := congrArg Prod.fst heq
              omega
            · exact hc.2.2.1 hin2
        have hn2 : (i + 2, e1) ∉ insert (i + 1, e2) st.1 := by
          intro hmem
          rcases Finset.mem_insert.mp hmem with heq | hin2
          · have : i + 2 = i + 1 := congrArg Prod.fst heq
            omega
          · exact hc.2.2.2.1 hin2
        have hnew1 := slotCount_insert_new ov split ordering hv1 hn1
        have hnew2 := slotCount_insert_new ov split ordering hv2 hn2
        have hm := slotCount_mono ov split ordering (Finset.subset_insert ((i + 1, e2)) st.1)
        simp only at hnew1 hnew2 hm ⊢
        omega

/-- The DCD pass counts at most the accountable slots it claims. -/
theorem dcdPass_bound (ov : List (Option Order)) (split : List Nat) (ordering : List Order)
    (pd : List (Nat × Order × Order)) (dc : List (Nat × Nat))
    (hpd : ∀ w ∈ pd, ordering.get? w.1 = some w.2.1 ∧ ordering.get? (w.1 + 1) = some w.2.2 ∧
      ordering.get? (w.1 + 2) = some w.2.1)
    (hdc : ∀ pr ∈ dc, pr.1 ∈ split) (st : Board × Nat) :
    (dcdPass ov split pd dc st).2 + slotCount ov split ordering st.1 ≤
      st.2 + slotCount ov split ordering (dcdPass ov split pd dc st).1 := by
  rw [dcdPass]
  refine foldl_slot_bound (slotCount ov split ordering) _ pd ?_ st
  intro s w hw
  refine foldl_slot_bound (slotCount ov split ordering) _ dc ?_ s
  intro s2 pr hpr
  exact dcdOne_bound ov split ordering w.1 w.2.1 w.2.2 pr.1 pr.2 s2
    (hpd w hw).1 (hpd w hw).2.1 (hpd w hw).2.2 (hdc pr hpr)

/-- Claim C10: for every pattern order table and every cut wrapped by
`into_wrapped`, the cost counts satisfy `wedge + dcd ≤ gates`, so the
unsigned subtraction `gates - dcd - wedge` inside `Cost::cut_length`
cannot underflow. -/
theorem gates_ge_wedge_add_dcd (g : SearchGraph) (c : Cutline) (ov : List (Option Order))
    (ordering : List Order) :
    (costForCutline ov (intoWrapped c g) (orderInfoNew ordering)).wedge +
        (costForCutline ov (intoWrapped c g) (orderInfoNew ordering)).dcd ≤
      (costForCutline ov (intoWrapped c g) (orderInfoNew ordering)).gates := by
  have hW := wedgePass_bound ov (intoWrapped c g).split ordering (potentialWedges ordering)
    (intoWrapped c g).wedgeCandidates (potentialWedges_get ordering)
    (intoWrapped_wedge_mem g c) (∅, 0)
  have hD := dcdPass_bound ov (intoWrapped c g).split ordering (potentialDcds ordering)
    (intoWrapped c g).dcdCandidates (potentialDcds_get ordering)
    (intoWrapped_dcd_mem g c)
    ((wedgePass ov (potentialWedges ordering) (intoWrapped c g).wedgeCandidates (∅, 0)).1, 0)
  have hTop := slotCount_le_sum ov ordering (intoWrapped c g).split
    (dcdPass ov (intoWrapped c g).split (potentialDcds ordering)
      (intoWrapped c g).dcdCandidates
      ((wedgePass ov (potentialWedges ordering) (intoWrapped c g).wedgeCandidates (∅, 0)).1, 0)).1
  have hEmpty : slotCount ov (intoWrapped c g).split ordering (∅ : Board) = 0 := by
    simp [slotCount]
  simp only [costForCutline, gateCount, orderInfoNew] at *
  omega

/-- The enumeration filter's test is the complement of a bit test. -/
theorem land_shift_eq_zero (n i : Nat) : (n &&& (1 <<< i) == 0) = !n.testBit i := by
  rw [Nat.shiftLeft_eq, one_mul, Nat.and_two_pow]
  cases h : n.testBit i
  · simp
  · simp [(Nat.two_pow_pos i).ne']

/-- Counting the numbers below `2 ^ B` whose bits at the distinct
positions of `D` (all below `B`) are clear: there are
`2 ^ (B - |D|)` of them. -/
theorem countP_clear_bits :
    ∀ (B : Nat) (D : List Nat), D.Nodup → (∀ i ∈ D, i < B) →
      (List.range (2 ^ B)).countP (fun n => D.all (fun i => n &&& (1 <<< i) == 0)) =
        2 ^ (B - D.length) := by
  intro B
  induction B with
  | zero =>
    intro D hnd hlt
    have hD : D = [] :=
      List.eq_nil_iff_forall_not_mem.mpr (fun i hi => absurd (hlt i hi) (Nat.not_lt_zero i))
    subst hD
    decide
  | succ B ih =>
    intro D hnd hlt
    have hpow : 2 ^ (B + 1) = 2 ^ B + 2 ^ B := by
      rw [pow_succ]
      omega
    rw [hpow, List.range_add, List.countP_append, List.countP_map]
    by_cases hB : B ∈ D
    · have hlow : (List.range (2 ^ B)).countP (fun n => D.all (fun i => n &&& (1 <<< i) == 0)) =
          (List.range (2 ^ B)).countP (fun n => (D.erase B).all (fun i => n &&& (1 <<< i) == 0)) := by
        refine List.countP_congr ?_
        intro n hn
        rw [List.mem_range] at hn
        simp only [List.all_eq_true]
        constructor
        · intro h i hi
          exact h i (List.mem_of_mem_erase hi)
        · intro h i hi
          by_cases hiB : i = B
          · subst hiB
            rw [land_shift_eq_zero]
            simp [Nat.testBit_lt_two_pow hn]
          · exact h i ((List.mem_erase_of_ne hiB).mpr hi)
      have hhigh : (List.range (2 ^ B)).countP
          ((fun n => D.all (fun i => n &&& (1 <<< i) == 0)) ∘ (fun x => 2 ^ B + x)) = 0 := by
        rw [List.countP_eq_zero]
        intro n hn
        rw [List.mem_range] at hn
        simp only [Function.comp_apply]
        intro hall
        rw [List.all_eq_true] at hall
        have hbit := hall B hB
        rw [land_shift_eq_zero, Nat.testBit_two_pow_add_eq,
          Nat.testBit_lt_two_pow hn] at hbit
        cases hbit
      rw [hlow, hhigh]
      have hih := ih (D.erase B) (hnd.erase B) (fun i hi => by
        have h1 := hlt i (List.mem_of_mem_erase hi)
        have h2 := (List.Nodup.mem_erase_iff hnd).mp hi
        omega)
      rw [hih, List.length_erase_of_mem hB]
      have hpos : 1 ≤ D.length := List.length_pos.mpr (fun h => by subst h; cases hB)
      have : B - (D.length - 1) = B + 1 - D.length := by omega
      rw [this]
      omega
    · have hall_lt : ∀ i ∈ D, i < B := by
        intro i hi
        have h1 := hlt i hi
        have h2 : i ≠ B := fun hx => hB (hx ▸ hi)
        omega
      have hhigh : (List.range (2 ^ B)).countP
          ((fun n => D.all (fun i => n &&& (1 <<< i) == 0)) ∘ (fun x => 2 ^ B + x)) =
          (List.range (2 ^ B)).countP (fun n => D.all (fun i => n &&& (1 <<< i) == 0)) := by
        refine List.countP_congr ?_
        intro n hn
        simp only [Function.comp_apply]
        simp only [List.all_eq_true]
        constructor
        · intro h i hi
          have := h i hi
          rw [land_shift_eq_zero, Nat.testBit_two_pow_add_gt (hall_lt i hi)] at this
          rw [land_shift_eq_zero]
          exact this
        · intro h i hi
          have := h i hi
          rw [land_shift_eq_zero] at this
          rw [land_shift_eq_zero, Nat.testBit_two_pow_add_gt (hall_lt i hi)]
          exact this
      rw [hhigh, ih D hnd hall_lt]
      have hlen : D.length ≤ B := by
        have hsubset : D.toFinset ⊆ Finset.range B := fun i hi =>
          Finset.mem_range.mpr (hall_lt i (List.mem_toFinset.mp hi))
        have hcard := Finset.card_le_card hsubset
        rwa [List.toFinset_card_of_nodup hnd, Finset.card_range] at hcard
      have harith : 2 ^ (B - D.length) + 2 ^ (B - D.length) = 2 ^ (B + 1 - D.length) := by
        have h1 : B + 1 - D.length = (B - D.length) + 1 := by omega
        rw [h1, pow_succ]
        omega
      exact harith

/-- Claim C8: on the default 12 by 11 lattice the bit-pattern
enumeration yields exactly `2 ^ 21` patterns; with qubit 6 unused it
yields `2 ^ 20`; with qubits 54, 60, 4, 5, 11, 17 unused it yields
`2 ^ 19` — the enumeration over all bit vectors skips exactly those
whose set bits include a dead diagonal. -/
theorem searchBitPatterns_counts :
    (fromConfig defaultTopology).map (fun g => (searchBitPatterns g).map List.length) =
        some (some (2 ^ 21)) ∧
      (fromConfig topo6).map (fun g => (searchBitPatterns g).map List.length) =
        some (some (2 ^ 20)) ∧
      (fromConfig topo519).map (fun g => (searchBitPatterns g).map List.length) =
        some (some (2 ^ 19)) := by
  refine ⟨?_, ?_, ?_⟩
  · rw [fromConfig_default]
    simp only [Option.map_some']
    have hnb : nBits gDefLit = 21 := by decide
    have hdead : deadSlashIndices gDefLit = [] := by decide
    rw [searchBitPatterns, if_neg (by rw [hnb]; omega)]
    simp only [Option.map_some', List.length_map]
    rw [hdead, ← List.countP_eq_length_filter, hnb]
    have hc := countP_clear_bits 21 [] (by decide) (by decide)
    simp only [List.length_nil, List.length_cons, Nat.sub_zero] at hc
    rw [hc]
  · rw [fromConfig_topo6]
    simp only [Option.map_some']
    have hnb : nBits g6Lit = 21 := by decide
    have hdead : deadSlashIndices g6Lit = [1] := by decide
    rw [searchBitPatterns, if_neg (by rw [hnb]; omega)]
    simp only [Option.map_some', List.length_map]
    rw [hdead, ← List.countP_eq_length_filter, hnb]
    have hc := countP_clear_bits 21 [1] (by decide) (by decide)
    simp only [List.length_nil, List.length_cons, Nat.sub_zero] at hc
    rw [hc]
  · rw [fromConfig_topo519]
    simp only [Option.map_some']
    have hnb : nBits g519Lit = 21 := by decide
    have hdead : deadSlashIndices g519Lit = [11, 20] := by decide
    rw [searchBitPatterns, if_neg (by rw [hnb]; omega)]
    simp only [Option.map_some', List.length_map]
    rw [hdead, ← List.countP_eq_length_filter, hnb]
    have hc := countP_clear_bits 21 [11, 20] (by decide) (by decide)
    simp only [List.length_nil, List.length_cons, Nat.sub_zero] at hc
    rw [hc]

/-- Counterexample for claim C6 at the concrete configuration: with
qubits 33 and 34 unused, the dual graph produced by `fromConfig` has 65
nodes after dangling-node pruning (the router between the two unused
qubits is pruned), not the 66 the claim states. -/
theorem dual_node_count_3334_concrete :
    (fromConfig topo3334).map (fun g => g.dual.nodes.length) = some 65 ∧ (65 : Nat) ≠ 66 := by
  refine ⟨?_, by decide⟩
  rw [fromConfig_topo3334]
  decide

/-- Claim C6, amended: for the 12 by 11 lattice with qubits 33 and 34
unused, the constructed dual graph has 65 nodes after boundary
computation and dangling-node pruning, and 102 of its edges are real. -/
theorem dual_counts_3334 :
    (fromConfig topo3334).map
        (fun g => (g.dual.nodes.length, (g.dual.edges.filter (fun e => e.2.2)).length)) =
      some (65, 102) := by
  rw [fromConfig_topo3334]
  decide

end Cutrs
